import Mathlib

/-!
Verification of the SEO ROI calculator's projection-and-break-even engine.

The engine lives in `src/hooks/useCalculatorState.ts` (traffic projection,
break-even locator, ROI computation, sanity checks), with the field validator
in `src/hooks/useFormValidation.ts` and a chart-utility break-even locator in
`src/utils/calculations.ts`.  JavaScript numbers are modelled as real numbers;
`Math.round` (round half toward positive infinity) is `jsRound`, and the
`safeRound` family rounds to a fixed number of decimals exactly as the source
does.  `Math.exp` is modelled by `Real.exp`.
-/

namespace SeoRoi

/-- JS `Math.round`: round to the nearest integer, halves toward `+∞`. -/
noncomputable def jsRound (x : ℝ) : ℤ := ⌊x + 1/2⌋

/-- Round to `d` decimal places (the way `safeRound` in the source does:
`Math.round(value * 10^d) / 10^d`). -/
noncomputable def jsRoundTo (d : ℕ) (x : ℝ) : ℝ := (jsRound (x * 10 ^ d) : ℝ) / 10 ^ d

/-- `safeRound` from `useCalculatorState.ts` with the default `decimals = 2`.
The `isFinite` guard is dropped: real numbers are always finite. -/
noncomputable def safeRound (x : ℝ) : ℝ := jsRoundTo 2 x

/-- Rounding to one decimal place, used for the displayed break-even month:
`Math.round(breakEvenMonth * 10) / 10`. -/
noncomputable def round1 (x : ℝ) : ℝ := (jsRound (x * 10) : ℝ) / 10

/-- `Number.MAX_SAFE_INTEGER`. -/
def maxSafeInteger : ℝ := 9007199254740991

/-- `safeAdd` from the source.  Both branches reduce to `safeRound (a + b)`:
for finite numbers the JS string round-trip `Number(a.toString())` is the
identity, so the large-magnitude branch computes the same value. -/
noncomputable def safeAdd (a b : ℝ) : ℝ := safeRound (a + b)

/-- JS `toPrecision(14)` (round to 14 significant digits), used by
`safeMultiply` only when a factor exceeds `Number.MAX_SAFE_INTEGER`. -/
noncomputable def toPrecision14 (x : ℝ) : ℝ :=
  if x = 0 then 0
  else (jsRound (x / 10 ^ (⌊Real.logb 10 |x|⌋ - 13)) : ℝ) * 10 ^ (⌊Real.logb 10 |x|⌋ - 13)

/-- `safeMultiply` from the source (the `isFinite` guard is vacuous over ℝ). -/
noncomputable def safeMultiply (a b : ℝ) : ℝ :=
  if |a| > maxSafeInteger ∨ |b| > maxSafeInteger then safeRound (toPrecision14 (a * b))
  else safeRound (a * b)

/-- `safePercentage` from the source. -/
noncomputable def safePercentage (value percentage : ℝ) : ℝ := safeRound (value * percentage / 100)

inductive CompetitionLevel
  | low
  | medium
  | high
deriving DecidableEq

inductive IndustryType
  | ecommerce
  | saas
  | localBiz
  | other
deriving DecidableEq

/-- The calculator state (`CalculatorState` in `types`): the engine's input
snapshot.  `timeframe` is kept as a natural number (the validator restricts it
to 1..60 months). -/
structure CalculatorState where
  currentTraffic : ℝ
  targetTraffic : ℝ
  conversionRate : ℝ
  averageOrderValue : ℝ
  monthlySEOCost : ℝ
  keywordDifficulty : ℝ
  competitionLevel : CompetitionLevel
  industryType : IndustryType
  contentInvestment : ℝ
  linkBuildingInvestment : ℝ
  technicalSEOInvestment : ℝ
  timeframe : ℕ

/-- Field-keyed validation errors built by `validateCalculatorInputs` in
`useFormValidation.ts` (plus the reserved `calculationError` key the hook
writes through `updateValidationErrors`). -/
structure ValidationErrors where
  currentTraffic : Option String := none
  targetTraffic : Option String := none
  conversionRate : Option String := none
  averageOrderValue : Option String := none
  monthlySEOCost : Option String := none
  keywordDifficulty : Option String := none
  timeframe : Option String := none
  contentInvestment : Option String := none
  linkBuildingInvestment : Option String := none
  technicalSEOInvestment : Option String := none
  calculationError : Option String := none
deriving DecidableEq

/-- `validateCalculatorInputs` from `useFormValidation.ts`.  The
`undefined`/`null` checks are dropped (the model's fields are plain numbers);
each field follows the source's if/else chain.  The investment-percentage
block first flags negatives and then fills the sum-mismatch message into any
field not already flagged, exactly as the source does. -/
noncomputable def validateCalculatorInputs (s : CalculatorState) : ValidationErrors :=
  let total := s.contentInvestment + s.linkBuildingInvestment + s.technicalSEOInvestment
  { currentTraffic :=
      if s.currentTraffic = 0 then some "Current traffic cannot be zero"
      else if s.currentTraffic < 0 then some "Current traffic cannot be negative"
      else if s.currentTraffic > 10000000 then some "Current traffic value is unrealistically high"
      else none
    targetTraffic :=
      if s.targetTraffic = 0 then some "Target traffic cannot be zero"
      else if s.targetTraffic < 0 then some "Target traffic cannot be negative"
      else if s.targetTraffic ≤ s.currentTraffic then
        some "Target traffic must be greater than current traffic"
      else if s.targetTraffic > 20000000 then some "Target traffic value is unrealistically high"
      else none
    conversionRate :=
      if s.conversionRate = 0 then some "Conversion rate cannot be zero"
      else if s.conversionRate < 0 then some "Conversion rate cannot be negative"
      else if s.conversionRate > 100 then some "Conversion rate cannot exceed 100%"
      else none
    averageOrderValue :=
      if s.averageOrderValue = 0 then some "Average order value cannot be zero"
      else if s.averageOrderValue < 0 then some "Average order value cannot be negative"
      else if s.averageOrderValue > 1000000 then some "Average order value is unrealistically high"
      else none
    monthlySEOCost :=
      if s.monthlySEOCost = 0 then some "Monthly SEO cost cannot be zero"
      else if s.monthlySEOCost < 0 then some "Monthly SEO cost cannot be negative"
      else if s.monthlySEOCost > 1000000 then some "Monthly SEO cost is unrealistically high"
      else none
    keywordDifficulty :=
      if s.keywordDifficulty < 1 then some "Keyword difficulty must be at least 1"
      else if s.keywordDifficulty > 100 then some "Keyword difficulty cannot exceed 100"
      else none
    timeframe :=
      if s.timeframe = 0 then some "Timeframe cannot be zero"
      else if s.timeframe > 60 then some "Timeframe cannot exceed 60 months"
      else none
    contentInvestment :=
      if s.contentInvestment < 0 then some "Content investment cannot be negative"
      else if total ≠ 100 then some "Investment allocations must equal 100%"
      else none
    linkBuildingInvestment :=
      if s.linkBuildingInvestment < 0 then some "Link building investment cannot be negative"
      else if total ≠ 100 then some "Investment allocations must equal 100%"
      else none
    technicalSEOInvestment :=
      if s.technicalSEOInvestment < 0 then some "Technical SEO investment cannot be negative"
      else if total ≠ 100 then some "Investment allocations must equal 100%"
      else none
    calculationError := none }

/-- A validator-accepted input: `validateCalculatorInputs` yields the empty
mapping (every field `none`), the spec's "empty mapping means valid". -/
def formValid (s : CalculatorState) : Prop := validateCalculatorInputs s = {}

/-- `validatePrecisionLimits` from `useCalculatorState.ts`. -/
noncomputable def validatePrecisionLimits (s : CalculatorState) : Option String :=
  if s.currentTraffic > 1000000000 then
    some "Current traffic exceeds safe calculation limit (1 billion visitors). Please enter a lower value."
  else if s.targetTraffic > 1000000000 then
    some "Target traffic exceeds safe calculation limit (1 billion visitors). Please enter a lower value."
  else if s.averageOrderValue > 100000000 then
    some "Average order value exceeds safe calculation limit ($100 million). Please enter a lower value."
  else if s.monthlySEOCost > 10000000 then
    some "Monthly SEO cost exceeds safe calculation limit ($10 million). Please enter a lower value."
  else if s.targetTraffic * (s.conversionRate / 100) * s.averageOrderValue > maxSafeInteger then
    some "The combination of traffic, conversion rate, and order value would result in revenue figures that exceed safe calculation limits. Please reduce one or more of these values."
  else none

/-! ### Traffic projection model (`generateTrafficProjection`) -/

/-- Domain-authority growth-rate factor keyed by current-traffic bucket. -/
noncomputable def domainAuthorityBase (currentTraffic : ℝ) : ℝ :=
  if currentTraffic < 300 then 0.07
  else if currentTraffic < 500 then 0.09
  else if currentTraffic < 1000 then 0.12
  else if currentTraffic < 5000 then 0.20
  else if currentTraffic < 50000 then 0.35
  else if currentTraffic < 200000 then 0.45
  else 0.55

/-- Competition-level multiplier applied to the growth-rate factor. -/
def competitionGrowthMul : CompetitionLevel → ℝ
  | .high => 0.8
  | .low => 1.2
  | .medium => 1

/-- The adjusted growth rate (`growthRate = domainAuthorityFactor` after the
competition adjustment). -/
noncomputable def growthRate (s : CalculatorState) : ℝ :=
  domainAuthorityBase s.currentTraffic * competitionGrowthMul s.competitionLevel

/-- The S-curve midpoint month. -/
noncomputable def midpoint (s : CalculatorState) : ℤ :=
  if s.currentTraffic < 500 then jsRound ((s.timeframe : ℝ) * 0.7)
  else if s.currentTraffic < 5000 then jsRound ((s.timeframe : ℝ) * 0.65)
  else jsRound ((s.timeframe : ℝ) * 0.6)

/-- Base ramp-up period keyed by current-traffic bucket. -/
noncomputable def rampUpBase (currentTraffic : ℝ) : ℝ :=
  if currentTraffic < 300 then 7
  else if currentTraffic < 500 then 5
  else if currentTraffic < 1000 then 4
  else if currentTraffic < 5000 then 3
  else 2

/-- Ramp-up period after the competition adjustment (`max 1` on the low side,
as in the source). -/
noncomputable def rampUpPeriod (s : CalculatorState) : ℝ :=
  match s.competitionLevel with
  | .high => rampUpBase s.currentTraffic + 1
  | .low => max 1 (rampUpBase s.currentTraffic - 1)
  | .medium => rampUpBase s.currentTraffic

/-- The month-`i` traffic increase before rounding: the minimal-growth
override for low-traffic sites in the first months, otherwise
`trafficDifference * sCurveFactor * rampUpFactor`. -/
noncomputable def trafficIncrease (s : CalculatorState) (i : ℕ) : ℝ :=
  let trafficDifference := s.targetTraffic - s.currentTraffic
  if s.currentTraffic < 300 ∧ i ≤ 3 then trafficDifference * 0.005 * i
  else if s.currentTraffic < 500 ∧ i ≤ 2 then trafficDifference * 0.015 * i
  else if s.currentTraffic < 1000 ∧ i ≤ 1 then trafficDifference * 0.025 * i
  else
    trafficDifference * (1 / (1 + Real.exp (-(growthRate s) * ((i : ℝ) - (midpoint s : ℝ)))))
      * (1 - Real.exp (-(i : ℝ) / rampUpPeriod s))

/-- `tempProjectedData`: the raw, integer-rounded S-curve series for months
`0..timeframe`. -/
noncomputable def tempProjected (s : CalculatorState) : List ℝ :=
  (List.range (s.timeframe + 1)).map fun i => (jsRound (s.currentTraffic + trafficIncrease s i) : ℝ)

/-- `finalGeneratedTraffic = tempProjectedData[state.timeframe]`. -/
noncomputable def finalGenerated (s : CalculatorState) : ℝ :=
  (tempProjected s).getD s.timeframe 0

/-- The boundary-correction factor
`(targetTraffic - currentTraffic) / (finalGeneratedTraffic - currentTraffic)`. -/
noncomputable def correctionFactor (s : CalculatorState) : ℝ :=
  (s.targetTraffic - s.currentTraffic) / (finalGenerated s - s.currentTraffic)

/-- The projection after the normalization loop (month 0 pinned at current
traffic, month N pinned at the target, intermediate increases rescaled), or
the raw series when the correction is skipped. -/
noncomputable def projectedBeforeEnsure (s : CalculatorState) : List ℝ :=
  if finalGenerated s ≠ s.targetTraffic ∧ s.targetTraffic > s.currentTraffic then
    (List.range (s.timeframe + 1)).map fun i =>
      if i = 0 then s.currentTraffic
      else if i = s.timeframe then s.targetTraffic
      else
        (jsRound (s.currentTraffic +
          ((tempProjected s).getD i 0 - s.currentTraffic) * correctionFactor s) : ℝ)
  else tempProjected s

/-- `ensureFinalMonthMatchesTarget` from the source: force the final month to
the target unless the list is too short or already matches. -/
noncomputable def ensureFinalMonthMatchesTarget (l : List ℝ) (targetTraffic : ℝ) (timeframe : ℕ) : List ℝ :=
  if l.length ≤ timeframe then l
  else if l.getD timeframe 0 = targetTraffic then l
  else l.set timeframe targetTraffic

/-- `generateTrafficProjection` from `useCalculatorState.ts`. -/
noncomputable def generateTrafficProjection (s : CalculatorState) : List ℝ :=
  ensureFinalMonthMatchesTarget (projectedBeforeEnsure s) s.targetTraffic s.timeframe

/-! ### Break-even locator (`calculateBreakEvenMonth` in the hook) -/

/-- `baselineMonthlyRevenue = currentTraffic * conversionRate / 100 * averageOrderValue`. -/
noncomputable def baselineMonthlyRevenue (s : CalculatorState) : ℝ :=
  s.currentTraffic * s.conversionRate / 100 * s.averageOrderValue

/-- Revenue generated by a month's (projected) traffic. -/
noncomputable def monthlyRevenue (s : CalculatorState) (traffic : ℝ) : ℝ :=
  traffic * s.conversionRate / 100 * s.averageOrderValue

/-- `cumulativeAdditionalRevenue` after month `i`: the running sum the
locator's loop maintains. -/
noncomputable def cumulativeRevenue (s : CalculatorState) (traffic : List ℝ) : ℕ → ℝ
  | 0 => 0
  | i + 1 =>
    cumulativeRevenue s traffic i +
      (monthlyRevenue s (traffic.getD (i + 1) 0) - baselineMonthlyRevenue s)

/-- `cumulativeCost` after month `i` (the loop adds `monthlySEOCost` once per
month, which over ℝ is `monthlySEOCost * i`). -/
noncomputable def cumulativeCost (s : CalculatorState) (i : ℕ) : ℝ := s.monthlySEOCost * i

/-- The fractional-month linear interpolation the locator performs at a
crossover month `i > 1`: note the deficit is measured against the *current*
month's cumulative cost (`cumulativeCost` has already been incremented when
the check runs). -/
noncomputable def interpolate (s : CalculatorState) (traffic : List ℝ) (i : ℕ) : ℝ :=
  let previousMonthDeficit := cumulativeCost s i - cumulativeRevenue s traffic (i - 1)
  let currentMonthSurplus := cumulativeRevenue s traffic i - cumulativeCost s i
  ((i : ℝ) - 1) + previousMonthDeficit / (previousMonthDeficit + currentMonthSurplus)

/-- The locator's loop: process months `i, i+1, ...` with `fuel` months left;
return at the first month whose cumulative revenue reaches cumulative cost,
defaulting to `timeframe` when the fuel runs out (the source's
`let breakEvenMonth = state.timeframe  // Default to last month`). -/
noncomputable def breakEvenAux (s : CalculatorState) (traffic : List ℝ) : ℕ → ℕ → ℝ
  | 0, _ => (s.timeframe : ℝ)
  | fuel + 1, i =>
    if cumulativeCost s i ≤ cumulativeRevenue s traffic i then
      if 1 < i ∧ cumulativeRevenue s traffic (i - 1) < cumulativeCost s i then
        interpolate s traffic i
      else (i : ℝ)
    else breakEvenAux s traffic fuel (i + 1)

/-- The break-even month before the display rounding. -/
noncomputable def breakEvenRaw (s : CalculatorState) (traffic : List ℝ) : ℝ :=
  breakEvenAux s traffic s.timeframe 1

/-- `calculateBreakEvenMonth` from `useCalculatorState.ts` (result rounded to
one decimal place for display, as the source's final statement does). -/
noncomputable def calculateBreakEvenMonth (s : CalculatorState) (traffic : List ℝ) : ℝ :=
  round1 (breakEvenRaw s traffic)

/-! ### Chart-utility break-even locator (`calculateBreakEvenMonth` in
`src/utils/calculations.ts`) -/

/-- One point of the visualization chart data built by `generateChartData`. -/
structure VisualizationChartDataPoint where
  month : ℝ
  monthlyTraffic : ℝ
  monthlyAdditionalTraffic : ℝ
  monthlyCost : ℝ
  monthlyAdditionalRevenue : ℝ
  cumulativeCost : ℝ
  cumulativeAdditionalRevenue : ℝ
  cumulativeROI : ℝ

/-- The utility locator's scan over adjacent chart points (`prev` is
`chartData[i-1]`, the list holds `chartData[i..]`). -/
noncomputable def utilsBreakEvenAux : VisualizationChartDataPoint → List VisualizationChartDataPoint → ℕ → ℝ
  | _, [], _ => -1
  | prev, curr :: rest, i =>
    if prev.cumulativeAdditionalRevenue < prev.cumulativeCost ∧
        curr.cumulativeCost ≤ curr.cumulativeAdditionalRevenue then
      ((i : ℝ) - 1) +
        (prev.cumulativeCost - prev.cumulativeAdditionalRevenue) /
          (curr.cumulativeAdditionalRevenue - prev.cumulativeAdditionalRevenue)
    else utilsBreakEvenAux curr rest (i + 1)

/-- `calculateBreakEvenMonth` from `src/utils/calculations.ts`: returns the
interpolated crossover month, or the sentinel `-1` when the break-even point
is not reached within the data. -/
noncomputable def utilsCalculateBreakEvenMonth : List VisualizationChartDataPoint → ℝ
  | [] => -1
  | p :: rest => utilsBreakEvenAux p rest 1

/-! ### `calculateResults` (the hook's compute pipeline) -/

/-- The key under which a failure is reported: either one of the per-field
keys the early validations write, or the reserved `calculationError` key used
for precision and calculation failures. -/
inductive ErrKey
  | calculationError
  | targetTraffic
  | timeframe
deriving DecidableEq

/-- The numeric part of `CalculationResults` (the chart payloads and the
recommendation text blocks carry no further computation and are omitted). -/
structure CalculationResults where
  initialRevenue : ℝ
  projectedRevenue : ℝ
  revenueIncrease : ℝ
  averageMonthlyIncrease : ℝ
  totalSEOCost : ℝ
  roi : ℝ
  breakEvenMonth : ℝ

/-- `initialRevenue = safeMultiply(safeMultiply(currentTraffic, conversionRate/100), averageOrderValue)`. -/
noncomputable def initialRevenueOf (s : CalculatorState) : ℝ :=
  safeMultiply (safeMultiply s.currentTraffic (s.conversionRate / 100)) s.averageOrderValue

/-- `projectedRevenue`, computed from the target traffic (the final month's
revenue). -/
noncomputable def projectedRevenueOf (s : CalculatorState) : ℝ :=
  safeMultiply (safeMultiply s.targetTraffic (s.conversionRate / 100)) s.averageOrderValue

/-- `revenueIncrease = safeRound(projectedRevenue - initialRevenue)`. -/
noncomputable def revenueIncreaseOf (s : CalculatorState) : ℝ :=
  safeRound (projectedRevenueOf s - initialRevenueOf s)

/-- `totalSEOCost = safeMultiply(monthlySEOCost, timeframe)`. -/
noncomputable def totalSEOCostOf (s : CalculatorState) : ℝ :=
  safeMultiply s.monthlySEOCost (s.timeframe : ℝ)

/-- `totalIncrease = safeMultiply(revenueIncrease, timeframe)`: the final
month's revenue increase multiplied by the number of months. -/
noncomputable def totalIncreaseOf (s : CalculatorState) : ℝ :=
  safeMultiply (revenueIncreaseOf s) (s.timeframe : ℝ)

/-- `totalProfit = safeRound(totalIncrease - totalSEOCost)`. -/
noncomputable def totalProfitOf (s : CalculatorState) : ℝ :=
  safeRound (totalIncreaseOf s - totalSEOCostOf s)

/-- `roi = safeRound((totalProfit / totalSEOCost) * 100)`. -/
noncomputable def roiOf (s : CalculatorState) : ℝ :=
  safeRound (totalProfitOf s / totalSEOCostOf s * 100)

/-- The hook's break-even value on the shared projection. -/
noncomputable def breakEvenOf (s : CalculatorState) : ℝ :=
  calculateBreakEvenMonth s (generateTrafficProjection s)

/-- The running `totalMonthlyIncreases` accumulator (uses `safeAdd`,
`safePercentage` and `safeMultiply` exactly as the loop body does). -/
noncomputable def totalMonthlyIncreases (s : CalculatorState) (traffic : List ℝ) : ℕ → ℝ
  | 0 => 0
  | i + 1 =>
    safeAdd (totalMonthlyIncreases s traffic i)
      (safeMultiply (safePercentage (traffic.getD (i + 1) 0 - s.currentTraffic) s.conversionRate)
        s.averageOrderValue)

/-- `averageMonthlyIncrease` (the loop runs `timeframe` months, so
`monthsWithIncrease = timeframe`). -/
noncomputable def averageMonthlyIncreaseOf (s : CalculatorState) : ℝ :=
  if 0 < s.timeframe then
    safeRound (totalMonthlyIncreases s (generateTrafficProjection s) s.timeframe / (s.timeframe : ℝ))
  else 0

/-- `calculateResults` from `useCalculatorState.ts` as a total function: the
early-return validations become `Except.error` values keyed like the hook's
`updateValidationErrors` calls, a thrown-and-caught calculation error becomes
an `Except.error` under the reserved `calculationError` key (with the catch
block's "Calculation failed: " prefix), and the success path returns the
numeric result record.  The `isNaN(breakEvenMonth)` guard is dropped: the real
model has no NaN (its JS counterpart can only fire through float pathologies). -/
noncomputable def calculateResults (s : CalculatorState) :
    Except (ErrKey × String) CalculationResults :=
  if s.currentTraffic = 0 ∨ s.targetTraffic = 0 ∨ s.timeframe = 0 ∨ s.conversionRate = 0 ∨
      s.averageOrderValue = 0 then
    .error (.calculationError, "Please fill in all required fields")
  else if s.targetTraffic ≤ s.currentTraffic then
    .error (.targetTraffic, "Target traffic must be greater than current traffic")
  else if s.timeframe < 1 ∨ 60 < s.timeframe then
    .error (.timeframe, "Timeframe must be between 1 and 60 months")
  else
    match validatePrecisionLimits s with
    | some msg => .error (.calculationError, msg)
    | none =>
      if totalSEOCostOf s = 0 then
        .error (.calculationError, "Calculation failed: Cannot calculate ROI with zero SEO cost")
      else if roiOf s > 10000 then
        .error (.calculationError,
          "Calculation failed: Calculated ROI is unrealistically high. Please review your inputs.")
      else if projectedRevenueOf s / initialRevenueOf s > 100 ∧ initialRevenueOf s > 0 then
        .error (.calculationError,
          "Calculation failed: Projected revenue growth is unrealistically high (100x current revenue). Please review your inputs.")
      else if breakEvenOf s < 1 ∧ breakEvenOf s ≠ 0 then
        .error (.calculationError,
          "Calculation failed: Break-even calculation produced an invalid result. Please review your inputs.")
      else if (generateTrafficProjection s).getD s.timeframe 0 ≠ s.targetTraffic then
        .error (.calculationError,
          "Calculation failed: Traffic projection model failed to match target traffic in final month. Please try different inputs.")
      else
        .ok
          { initialRevenue := initialRevenueOf s
            projectedRevenue := projectedRevenueOf s
            revenueIncrease := revenueIncreaseOf s
            averageMonthlyIncrease := averageMonthlyIncreaseOf s
            totalSEOCost := totalSEOCostOf s
            roi := roiOf s
            breakEvenMonth := breakEvenOf s }

/-- The `roi` field of a successful computation, `none` on failure. -/
noncomputable def roiResult (s : CalculatorState) : Option ℝ :=
  match calculateResults s with
  | .ok r => some r.roi
  | .error _ => none

/-- Whether a computation outcome is a failure under the reserved
`calculationError` key (a single calculation-level message, no result). -/
def isCalcError : Except (ErrKey × String) CalculationResults → Prop
  | .error (k, _) => k = ErrKey.calculationError
  | .ok _ => False

/-- The conditions under which `calculateResults` proceeds past its inline
validations into the computation itself. -/
def hookValid (s : CalculatorState) : Prop :=
  ¬(s.currentTraffic = 0 ∨ s.targetTraffic = 0 ∨ s.timeframe = 0 ∨ s.conversionRate = 0 ∨
      s.averageOrderValue = 0) ∧
    s.currentTraffic < s.targetTraffic ∧ 1 ≤ s.timeframe ∧ s.timeframe ≤ 60 ∧
    validatePrecisionLimits s = none

/-- Modelled from the spec: the cumulative revenue increase over the whole
timeframe, `cumulativeRevenueIncrease[N]`, evaluated on the engine's shared
traffic projection (§4.3 of the spec). -/
noncomputable def specCumulativeRevenue (s : CalculatorState) : ℝ :=
  cumulativeRevenue s (generateTrafficProjection s) s.timeframe

/-- Modelled from the spec: the ROI formula the spec prescribes,
`roiPercent = (cumulativeRevenueIncrease[N] - totalCost) / totalCost * 100`
with `totalCost = monthlySEOCost * N` (§4.5).  Used as the comparison point
for claim C4; the source computes ROI differently. -/
noncomputable def specROIPercent (s : CalculatorState) : ℝ :=
  (specCumulativeRevenue s - s.monthlySEOCost * (s.timeframe : ℝ)) /
    (s.monthlySEOCost * (s.timeframe : ℝ)) * 100

/-- No adjacent pair of chart points crosses from deficit to surplus (the
condition under which the utility locator's scan never fires). -/
def NoCross : VisualizationChartDataPoint → List VisualizationChartDataPoint → Prop
  | _, [] => True
  | prev, curr :: rest =>
    ¬(prev.cumulativeAdditionalRevenue < prev.cumulativeCost ∧
        curr.cumulativeCost ≤ curr.cumulativeAdditionalRevenue) ∧ NoCross curr rest

/-! ### Concrete inputs used by the claims -/

/-- A validator-accepted input whose cumulative revenue never reaches
cumulative cost (tiny traffic gap, maximal monthly cost). -/
def state1 : CalculatorState :=
  { currentTraffic := 1000, targetTraffic := 1001, conversionRate := 1, averageOrderValue := 1
    monthlySEOCost := 1000000, keywordDifficulty := 40, competitionLevel := .medium
    industryType := .ecommerce, contentInvestment := 30, linkBuildingInvestment := 40
    technicalSEOInvestment := 30, timeframe := 1 }

/-- A validator-accepted input with fractional current traffic. -/
def state2 : CalculatorState :=
  { currentTraffic := 100.5, targetTraffic := 101, conversionRate := 2, averageOrderValue := 100
    monthlySEOCost := 1000, keywordDifficulty := 40, competitionLevel := .medium
    industryType := .ecommerce, contentInvestment := 30, linkBuildingInvestment := 40
    technicalSEOInvestment := 30, timeframe := 1 }

/-- An integral-traffic validator-accepted input (witness input for C2). -/
def state2w : CalculatorState :=
  { currentTraffic := 100, targetTraffic := 200, conversionRate := 2, averageOrderValue := 100
    monthlySEOCost := 1000, keywordDifficulty := 40, competitionLevel := .medium
    industryType := .ecommerce, contentInvestment := 30, linkBuildingInvestment := 40
    technicalSEOInvestment := 30, timeframe := 2 }

/-- Input for exercising the break-even interpolation at a crossover in
month 2. -/
def state3 : CalculatorState :=
  { currentTraffic := 1000, targetTraffic := 3500, conversionRate := 1, averageOrderValue := 100
    monthlySEOCost := 1000, keywordDifficulty := 40, competitionLevel := .medium
    industryType := .ecommerce, contentInvestment := 30, linkBuildingInvestment := 40
    technicalSEOInvestment := 30, timeframe := 2 }

/-- A traffic series whose cumulative additional revenue against `state3`
crosses cumulative cost between months 1 and 2. -/
def traffic3 : List ℝ := [1000, 1500, 3500]

/-- A validator-accepted input whose monthly revenue increases ramp up, so the
cumulative revenue sum differs from the final increase times the timeframe. -/
def state4 : CalculatorState :=
  { currentTraffic := 100, targetTraffic := 200, conversionRate := 10, averageOrderValue := 10
    monthlySEOCost := 100, keywordDifficulty := 40, competitionLevel := .medium
    industryType := .ecommerce, contentInvestment := 30, linkBuildingInvestment := 40
    technicalSEOInvestment := 30, timeframe := 3 }

/-- A validator-accepted low-traffic input with a large gap and long
timeframe: the minimal-growth override makes month 1 overshoot month 2. -/
def state5 : CalculatorState :=
  { currentTraffic := 500, targetTraffic := 100000, conversionRate := 2, averageOrderValue := 50
    monthlySEOCost := 1000, keywordDifficulty := 40, competitionLevel := .high
    industryType := .ecommerce, contentInvestment := 30, linkBuildingInvestment := 40
    technicalSEOInvestment := 30, timeframe := 60 }

/-- Witness input for the amended monotonicity claim (no minimal-growth
override applies at 1000 visitors). -/
def state5w : CalculatorState :=
  { currentTraffic := 1000, targetTraffic := 2000, conversionRate := 2, averageOrderValue := 100
    monthlySEOCost := 1000, keywordDifficulty := 40, competitionLevel := .medium
    industryType := .ecommerce, contentInvestment := 30, linkBuildingInvestment := 40
    technicalSEOInvestment := 30, timeframe := 2 }

/-- An input passing all validations whose computed ROI exceeds the 10000%
sanity ceiling (very small monthly cost). -/
def state6 : CalculatorState :=
  { currentTraffic := 100, targetTraffic := 200, conversionRate := 10, averageOrderValue := 10
    monthlySEOCost := 0.01, keywordDifficulty := 40, competitionLevel := .medium
    industryType := .ecommerce, contentInvestment := 30, linkBuildingInvestment := 40
    technicalSEOInvestment := 30, timeframe := 3 }

/-- An input whose revenue product exceeds the safe-integer limit but which
fails the target-vs-current check first. -/
def state7x : CalculatorState :=
  { currentTraffic := 1000000000, targetTraffic := 1000000000, conversionRate := 100
    averageOrderValue := 100000000, monthlySEOCost := 1000, keywordDifficulty := 40
    competitionLevel := .medium, industryType := .ecommerce, contentInvestment := 30
    linkBuildingInvestment := 40, technicalSEOInvestment := 30, timeframe := 12 }

/-- An input passing the field checks whose revenue product exceeds the
safe-integer limit. -/
def state7w : CalculatorState :=
  { currentTraffic := 1000000, targetTraffic := 1000000000, conversionRate := 100
    averageOrderValue := 100000000, monthlySEOCost := 1000000, keywordDifficulty := 40
    competitionLevel := .medium, industryType := .ecommerce, contentInvestment := 30
    linkBuildingInvestment := 40, technicalSEOInvestment := 30, timeframe := 12 }

/-- An input with positive required fields but target not above current. -/
def state8w : CalculatorState :=
  { currentTraffic := 1000, targetTraffic := 500, conversionRate := 2, averageOrderValue := 100
    monthlySEOCost := 1000, keywordDifficulty := 40, competitionLevel := .medium
    industryType := .ecommerce, contentInvestment := 30, linkBuildingInvestment := 40
    technicalSEOInvestment := 30, timeframe := 12 }

/-- The known fixture: 500 → 1500 visitors, 1.5% conversion, $80 order value,
$1000/month, 12 months, medium competition. -/
def state9 : CalculatorState :=
  { currentTraffic := 500, targetTraffic := 1500, conversionRate := 1.5, averageOrderValue := 80
    monthlySEOCost := 1000, keywordDifficulty := 40, competitionLevel := .medium
    industryType := .ecommerce, contentInvestment := 30, linkBuildingInvestment := 40
    technicalSEOInvestment := 30, timeframe := 12 }

/-- A validator-accepted input with a small traffic gap whose raw S-curve
rounds back to the current traffic at the final month, making the boundary
correction's divisor zero. -/
def state10 : CalculatorState :=
  { currentTraffic := 200, targetTraffic := 201, conversionRate := 1, averageOrderValue := 10
    monthlySEOCost := 100, keywordDifficulty := 40, competitionLevel := .high
    industryType := .ecommerce, contentInvestment := 30, linkBuildingInvestment := 40
    technicalSEOInvestment := 30, timeframe := 4 }

/-- Witness input for the amended divisor claim: the gap of 200 visitors
keeps the final raw month strictly above the current traffic. -/
def state10w : CalculatorState :=
  { currentTraffic := 100, targetTraffic := 300, conversionRate := 2, averageOrderValue := 50
    monthlySEOCost := 1000, keywordDifficulty := 40, competitionLevel := .medium
    industryType := .ecommerce, contentInvestment := 30, linkBuildingInvestment := 40
    technicalSEOInvestment := 30, timeframe := 2 }

/-- Witness input for C1's amended claim: at 100 baseline visitors a flat
series produces no additional revenue. -/
def state1w : CalculatorState :=
  { currentTraffic := 100, targetTraffic := 200, conversionRate := 10, averageOrderValue := 10
    monthlySEOCost := 100, keywordDifficulty := 40, competitionLevel := .medium
    industryType := .ecommerce, contentInvestment := 30, linkBuildingInvestment := 40
    technicalSEOInvestment := 30, timeframe := 2 }

/-- A chart point at month 0 (all-zero baseline). -/
def chartPoint0 : VisualizationChartDataPoint :=
  { month := 0, monthlyTraffic := 0, monthlyAdditionalTraffic := 0, monthlyCost := 0
    monthlyAdditionalRevenue := 0, cumulativeCost := 0, cumulativeAdditionalRevenue := 0
    cumulativeROI := 0 }

/-- A chart point at month 1 with cost but no additional revenue. -/
def chartPoint1 : VisualizationChartDataPoint :=
  { month := 1, monthlyTraffic := 0, monthlyAdditionalTraffic := 0, monthlyCost := 100
    monthlyAdditionalRevenue := 0, cumulativeCost := 100, cumulativeAdditionalRevenue := 0
    cumulativeROI := -100 }

/-! ### Rounding lemmas -/

lemma jsRound_eq (x : ℝ) (n : ℤ) (h1 : (n : ℝ) - 1/2 ≤ x) (h2 : x < (n : ℝ) + 1/2) :
    jsRound x = n := by
  unfold jsRound
  rw [Int.floor_eq_iff]
  constructor <;> push_cast <;> linarith

lemma jsRound_intCast (n : ℤ) : jsRound (n : ℝ) = n := by
  apply jsRound_eq <;> norm_num

lemma jsRound_le (x : ℝ) : (jsRound x : ℝ) ≤ x + 1/2 := Int.floor_le _

lemma lt_jsRound (x : ℝ) : x - 1/2 < (jsRound x : ℝ) := by
  have := Int.lt_floor_add_one (x + 1/2)
  unfold jsRound
  linarith

lemma jsRound_mono {x y : ℝ} (h : x ≤ y) : jsRound x ≤ jsRound y :=
  Int.floor_mono (by linarith)

lemma jsRound_nonneg {x : ℝ} (h : 0 ≤ x) : 0 ≤ jsRound x := by
  have := lt_jsRound x
  have : (-1 : ℤ) < jsRound x := by exact_mod_cast lt_of_le_of_lt (by linarith : (-1:ℝ) ≤ x - 1/2) this
  omega

lemma jsRound_int_add (n : ℤ) (x : ℝ) : jsRound ((n : ℝ) + x) = n + jsRound x := by
  unfold jsRound
  rw [add_assoc, Int.floor_int_add]

lemma le_jsRound_of (x : ℝ) (n : ℤ) (h : (n : ℝ) - 1/2 ≤ x) : n ≤ jsRound x := by
  unfold jsRound
  rw [Int.le_floor]
  push_cast
  linarith

lemma jsRound_le_of (x : ℝ) (n : ℤ) (h : x < (n : ℝ) + 1/2) : jsRound x ≤ n := by
  unfold jsRound
  rw [Int.floor_le_iff]
  push_cast
  linarith

/-- Evaluate `safeRound` by certifying the value in hundredths. -/
lemma safeRound_eq (x : ℝ) (n : ℤ) (h1 : (n : ℝ) - 1/2 ≤ x * 100) (h2 : x * 100 < (n : ℝ) + 1/2) :
    safeRound x = (n : ℝ) / 100 := by
  unfold safeRound jsRoundTo
  have hx : x * 10 ^ 2 = x * 100 := by norm_num
  rw [hx, jsRound_eq (x * 100) n h1 h2]
  norm_num

/-- `safeRound` is the identity on whole-cent values. -/
lemma safeRound_cents (n : ℤ) : safeRound ((n : ℝ) / 100) = (n : ℝ) / 100 := by
  rw [safeRound_eq ((n : ℝ) / 100) n]
  · rw [div_mul_cancel₀ _ (by norm_num : (100:ℝ) ≠ 0)]
    linarith
  · rw [div_mul_cancel₀ _ (by norm_num : (100:ℝ) ≠ 0)]
    linarith

lemma safeRound_intCast (n : ℤ) : safeRound (n : ℝ) = (n : ℝ) := by
  have h := safeRound_cents (n * 100)
  have h2 : ((n * 100 : ℤ) : ℝ) / 100 = (n : ℝ) := by
    push_cast
    ring
  rw [h2] at h
  exact h

/-! ### List indexing lemmas -/

lemma getD_range_map (f : ℕ → ℝ) (n i : ℕ) (d : ℝ) (h : i < n) :
    (((List.range n).map f).getD i d) = f i := by
  rw [List.getD_eq_getElem?_getD, List.getElem?_map, List.getElem?_range h]
  rfl

lemma getD_set_ne (l : List ℝ) (i j : ℕ) (a d : ℝ) (h : i ≠ j) :
    (l.set i a).getD j d = l.getD j d := by
  rw [List.getD_eq_getElem?_getD, List.getD_eq_getElem?_getD, List.getElem?_set_ne h]

/-! ### Exponential bounds -/

lemma exp_neg_le_inv_one_add {x : ℝ} (hx : 0 ≤ x) : Real.exp (-x) ≤ 1 / (1 + x) := by
  have h1 : 1 + x ≤ Real.exp x := by have := Real.add_one_le_exp x; linarith
  have h2 : (0:ℝ) < 1 + x := by linarith
  rw [Real.exp_neg]
  exact inv_le_inv_of_le h2 h1 |>.trans_eq (one_div _).symm

lemma one_sub_le_exp_neg (x : ℝ) : 1 - x ≤ Real.exp (-x) := by
  have := Real.add_one_le_exp (-x)
  linarith

lemma exp_pow_le_exp {x : ℝ} (n : ℕ) (hn : 0 < n) (hx : 0 ≤ x) :
    (1 + x / n) ^ n ≤ Real.exp x := by
  have h0 : (0:ℝ) ≤ 1 + x / n := by positivity
  have h1 : 1 + x / n ≤ Real.exp (x / n) := by
    have := Real.add_one_le_exp (x / n); linarith
  calc (1 + x / n) ^ n ≤ (Real.exp (x / n)) ^ n := pow_le_pow_left h0 h1 n
    _ = Real.exp ((n : ℝ) * (x / n)) := (Real.exp_nat_mul _ n).symm
    _ = Real.exp x := by
        congr 1
        field_simp

lemma exp_neg_le_inv {x : ℝ} (n : ℕ) (hn : 0 < n) (hx : 0 ≤ x) :
    Real.exp (-x) ≤ ((1 + x / n) ^ n)⁻¹ := by
  have hp : (0:ℝ) < (1 + x / n) ^ n := by positivity
  rw [Real.exp_neg]
  exact inv_le_inv_of_le hp (exp_pow_le_exp n hn hx)

lemma pow_le_exp_neg {x : ℝ} (n : ℕ) (hx : 0 ≤ x) (hxn : x ≤ n) :
    (1 - x / n) ^ n ≤ Real.exp (-x) := by
  rcases Nat.eq_zero_or_pos n with h | h
  · subst h
    simp only [Nat.cast_zero, div_zero, sub_zero, pow_zero]
    have : x = 0 := le_antisymm (by exact_mod_cast hxn) hx
    simp [this]
  · have hn0 : (0:ℝ) < n := by exact_mod_cast h
    have h0 : (0:ℝ) ≤ 1 - x / n := by
      rw [sub_nonneg, div_le_one hn0]
      exact hxn
    have h1 : 1 - x / n ≤ Real.exp (-(x / n)) := one_sub_le_exp_neg _
    calc (1 - x / n) ^ n ≤ (Real.exp (-(x / n))) ^ n := pow_le_pow_left h0 h1 n
      _ = Real.exp ((n : ℝ) * (-(x / n))) := (Real.exp_nat_mul _ n).symm
      _ = Real.exp (-x) := by
          congr 1
          field_simp
          ring

lemma exp_le_inv_pow {x : ℝ} (n : ℕ) (hx : 0 ≤ x) (hxn : x < n) :
    Real.exp x ≤ ((1 - x / n) ^ n)⁻¹ := by
  have hn0 : (0:ℝ) < n := lt_of_le_of_lt hx hxn
  have h0 : (0:ℝ) < 1 - x / n := by
    rw [sub_pos, div_lt_one hn0]
    exact hxn
  have hp : (0:ℝ) < (1 - x / n) ^ n := by positivity
  have h2 := pow_le_exp_neg n hx hxn.le
  rw [Real.exp_neg] at h2
  calc Real.exp x = (Real.exp x)⁻¹⁻¹ := (inv_inv _).symm
    _ ≤ ((1 - x / n) ^ n)⁻¹ := by
        apply inv_le_inv_of_le hp
        exact h2

lemma exp_pos_zero_lt_one {x : ℝ} (hx : 0 < x) : Real.exp (-x) < 1 := by
  rw [Real.exp_lt_one_iff]
  linarith

lemma exp_neg_le_one {x : ℝ} (hx : 0 ≤ x) : Real.exp (-x) ≤ 1 := by
  rw [Real.exp_le_one_iff]
  linarith

/-! ### Structural lemmas about the projection -/

lemma round1_intCast (n : ℤ) : round1 (n : ℝ) = (n : ℝ) := by
  unfold round1
  have h : (n : ℝ) * 10 = ((n * 10 : ℤ) : ℝ) := by push_cast; ring
  rw [h, jsRound_intCast]
  push_cast
  ring

lemma round1_natCast (n : ℕ) : round1 (n : ℝ) = (n : ℝ) := by
  have := round1_intCast (n : ℤ)
  push_cast at this
  exact this

lemma tempProjected_length (s : CalculatorState) :
    (tempProjected s).length = s.timeframe + 1 := by
  unfold tempProjected
  simp

lemma tempProjected_getD (s : CalculatorState) (i : ℕ) (h : i ≤ s.timeframe) :
    (tempProjected s).getD i 0 = (jsRound (s.currentTraffic + trafficIncrease s i) : ℝ) := by
  unfold tempProjected
  rw [getD_range_map _ _ _ _ (by omega)]

lemma projectedBeforeEnsure_length (s : CalculatorState) :
    (projectedBeforeEnsure s).length = s.timeframe + 1 := by
  unfold projectedBeforeEnsure
  split_ifs
  · simp
  · exact tempProjected_length s

lemma generateTrafficProjection_length (s : CalculatorState) :
    (generateTrafficProjection s).length = s.timeframe + 1 := by
  unfold generateTrafficProjection ensureFinalMonthMatchesTarget
  split_ifs <;> simp [projectedBeforeEnsure_length]

/-- After `ensureFinalMonthMatchesTarget`, month `timeframe` always equals the
target traffic. -/
lemma generateTrafficProjection_final (s : CalculatorState) :
    (generateTrafficProjection s).getD s.timeframe 0 = s.targetTraffic := by
  unfold generateTrafficProjection ensureFinalMonthMatchesTarget
  have hlen : ¬((projectedBeforeEnsure s).length ≤ s.timeframe) := by
    rw [projectedBeforeEnsure_length]
    omega
  rw [if_neg hlen]
  split_ifs with h
  · exact h
  · rw [List.getD_eq_getElem?_getD, List.getElem?_set_self (by rw [projectedBeforeEnsure_length]; omega)]
    rfl

/-- The month-0 increase vanishes in every branch of the model. -/
lemma trafficIncrease_zero (s : CalculatorState) : trafficIncrease s 0 = 0 := by
  unfold trafficIncrease
  split_ifs <;> simp

/-- Months other than `timeframe` are untouched by the final-month fix-up. -/
lemma generateTrafficProjection_getD_ne (s : CalculatorState) (i : ℕ) (h : i ≠ s.timeframe) :
    (generateTrafficProjection s).getD i 0 = (projectedBeforeEnsure s).getD i 0 := by
  unfold generateTrafficProjection ensureFinalMonthMatchesTarget
  split_ifs with h1 h2
  · rfl
  · rfl
  · exact getD_set_ne _ _ _ _ _ (fun hx => h hx.symm)

/-! ### Unpacking a validator-accepted input -/

lemma formValid_facts (s : CalculatorState) (h : formValid s) :
    0 < s.currentTraffic ∧ s.currentTraffic < s.targetTraffic ∧ 0 < s.conversionRate ∧
      s.conversionRate ≤ 100 ∧ 0 < s.averageOrderValue ∧ 0 < s.monthlySEOCost ∧
      1 ≤ s.timeframe ∧ s.timeframe ≤ 60 := by
  unfold formValid validateCalculatorInputs at h
  rw [ValidationErrors.mk.injEq] at h
  obtain ⟨h1, h2, h3, h4, h5, h6, h7, h8, h9, h10, h11⟩ := h
  refine ⟨?_, ?_, ?_, ?_, ?_, ?_, ?_, ?_⟩
  · split_ifs at h1 with c1 c2 c3
    all_goals first | (exact lt_of_le_of_ne (not_lt.mp c2) (Ne.symm c1)) | simp_all
  · split_ifs at h2 with c1 c2 c3 c4
    all_goals first | (exact not_le.mp c3) | simp_all
  · split_ifs at h3 with c1 c2 c3
    all_goals first | (exact lt_of_le_of_ne (not_lt.mp c2) (Ne.symm c1)) | simp_all
  · split_ifs at h3 with c1 c2 c3
    all_goals first | (exact not_lt.mp c3) | simp_all
  · split_ifs at h4 with c1 c2 c3
    all_goals first | (exact lt_of_le_of_ne (not_lt.mp c2) (Ne.symm c1)) | simp_all
  · split_ifs at h5 with c1 c2 c3
    all_goals first | (exact lt_of_le_of_ne (not_lt.mp c2) (Ne.symm c1)) | simp_all
  · split_ifs at h7 with c1 c2
    all_goals first | omega | simp_all
  · split_ifs at h7 with c1 c2
    all_goals first | (exact not_lt.mp c2) | simp_all

/-! ### Break-even locator characterization -/

lemma breakEvenAux_never (s : CalculatorState) (traffic : List ℝ) :
    ∀ (fuel i : ℕ),
      (∀ j, i ≤ j → j < i + fuel → cumulativeRevenue s traffic j < cumulativeCost s j) →
      breakEvenAux s traffic fuel i = (s.timeframe : ℝ) := by
  intro fuel
  induction fuel with
  | zero => intro i _; rfl
  | succ n ih =>
    intro i h
    have hi : cumulativeRevenue s traffic i < cumulativeCost s i := h i le_rfl (by omega)
    unfold breakEvenAux
    rw [if_neg (not_le.mpr hi)]
    exact ih (i + 1) fun j hj1 hj2 => h j (by omega) (by omega)

/-- When cumulative revenue stays below cumulative cost through every month of
the timeframe, the locator's loop falls through to its default. -/
lemma breakEvenRaw_never (s : CalculatorState) (traffic : List ℝ)
    (h : ∀ j, 1 ≤ j → j ≤ s.timeframe →
      cumulativeRevenue s traffic j < cumulativeCost s j) :
    breakEvenRaw s traffic = (s.timeframe : ℝ) := by
  unfold breakEvenRaw
  exact breakEvenAux_never s traffic s.timeframe 1 fun j hj1 hj2 => h j hj1 (by omega)

lemma breakEvenAux_first (s : CalculatorState) (traffic : List ℝ) (i : ℕ)
    (hprev : ∀ j, 1 ≤ j → j < i → cumulativeRevenue s traffic j < cumulativeCost s j)
    (hcross : cumulativeCost s i ≤ cumulativeRevenue s traffic i) :
    ∀ (fuel i0 : ℕ), 1 ≤ i0 → i0 ≤ i → i < i0 + fuel →
      breakEvenAux s traffic fuel i0 =
        if 1 < i ∧ cumulativeRevenue s traffic (i - 1) < cumulativeCost s i then
          interpolate s traffic i
        else (i : ℝ) := by
  intro fuel
  induction fuel with
  | zero => intro i0 _ h1 h2; omega
  | succ n ih =>
    intro i0 hi0 hle hlt
    rcases eq_or_lt_of_le hle with heq | hlt2
    · subst heq
      unfold breakEvenAux
      rw [if_pos hcross]
    · have hno : cumulativeRevenue s traffic i0 < cumulativeCost s i0 := hprev i0 hi0 hlt2
      unfold breakEvenAux
      rw [if_neg (not_le.mpr hno)]
      exact ih (i0 + 1) (by omega) (by omega) (by omega)

/-- The utility locator returns the `-1` sentinel whenever no adjacent pair of
points crosses from deficit to surplus. -/
lemma utilsBreakEvenAux_nocross :
    ∀ (l : List VisualizationChartDataPoint) (prev : VisualizationChartDataPoint) (i : ℕ),
      NoCross prev l → utilsBreakEvenAux prev l i = -1 := by
  intro l
  induction l with
  | nil => intro prev i _; rfl
  | cons curr rest ih =>
    intro prev i h
    obtain ⟨h1, h2⟩ := h
    unfold utilsBreakEvenAux
    rw [if_neg h1]
    exact ih curr (i + 1) h2

/-! ### Evaluating the projection on `state1` -/

lemma state1_midpoint : midpoint state1 = 1 := by
  unfold midpoint
  rw [if_neg (by norm_num [state1]), if_pos (by norm_num [state1])]
  have h : ((state1.timeframe : ℕ) : ℝ) * 0.65 = 0.65 := by norm_num [state1]
  rw [h]
  apply jsRound_eq <;> norm_num

lemma state1_growthRate : growthRate state1 = 0.2 := by
  unfold growthRate domainAuthorityBase competitionGrowthMul
  norm_num [state1]

lemma state1_ramp : rampUpPeriod state1 = 3 := by
  unfold rampUpPeriod rampUpBase
  norm_num [state1]

lemma state1_inc1 : trafficIncrease state1 1 =
    (1 / (1 + 1)) * (1 - Real.exp (-(1 : ℝ) / 3)) := by
  unfold trafficIncrease
  rw [if_neg (by norm_num [state1]), if_neg (by norm_num [state1]),
    if_neg (by norm_num [state1]), state1_midpoint, state1_growthRate, state1_ramp]
  have h : -(0.2 : ℝ) * (((1 : ℕ) : ℝ) - ((1 : ℤ) : ℝ)) = 0 := by push_cast; ring
  rw [h, Real.exp_zero]
  norm_num [state1]

lemma state1_temp0 : (tempProjected state1).getD 0 0 = 1000 := by
  rw [tempProjected_getD state1 0 (by norm_num [state1]), trafficIncrease_zero]
  have h : state1.currentTraffic + 0 = (1000 : ℝ) := by norm_num [state1]
  rw [h]
  rw [show ((1000 : ℝ)) = (((1000 : ℤ)) : ℝ) by norm_num, jsRound_intCast]

lemma state1_temp1 : (tempProjected state1).getD 1 0 = 1000 := by
  rw [tempProjected_getD state1 1 (by norm_num [state1]), state1_inc1]
  have e1 : Real.exp (-(1 : ℝ) / 3) ≤ 1 := by
    rw [show (-(1 : ℝ) / 3) = -(1/3) by ring]
    exact exp_neg_le_one (by norm_num)
  have e2 : 0 < Real.exp (-(1 : ℝ) / 3) := Real.exp_pos _
  have h : jsRound (state1.currentTraffic + 1 / (1 + 1) * (1 - Real.exp (-(1 : ℝ) / 3))) =
      (1000 : ℤ) := by
    apply jsRound_eq <;> norm_num [state1] <;> nlinarith
  rw [h]
  norm_num

lemma state1_final : finalGenerated state1 = 1000 := by
  unfold finalGenerated
  have h : state1.timeframe = 1 := by norm_num [state1]
  rw [h]
  exact state1_temp1

lemma state1_proj : generateTrafficProjection state1 = [1000, 1001] := by
  unfold generateTrafficProjection
  have hbranch : projectedBeforeEnsure state1 = [1000, 1001] := by
    unfold projectedBeforeEnsure
    rw [if_pos ⟨by rw [state1_final]; norm_num [state1], by norm_num [state1]⟩]
    have h : state1.timeframe + 1 = 2 := by norm_num [state1]
    rw [h]
    simp only [List.range_succ, List.range_zero, List.nil_append, List.cons_append,
      List.map_cons, List.map_nil]
    norm_num [state1]
  rw [hbranch]
  unfold ensureFinalMonthMatchesTarget
  norm_num [state1]

lemma state1_cumRev1 :
    cumulativeRevenue state1 (generateTrafficProjection state1) 1 = 1/100 := by
  rw [state1_proj]
  show (0 : ℝ) + _ = 1/100
  norm_num [monthlyRevenue, baselineMonthlyRevenue, state1]

/-- C1, claim as stated is false: `state1` is validator-accepted, its
cumulative revenue increase never reaches cumulative cost within the
timeframe, yet the hook's break-even locator returns the timeframe itself
(month 1) rather than a distinguished sentinel. -/
theorem c1_counterexample :
    formValid state1 ∧
    cumulativeRevenue state1 (generateTrafficProjection state1) 1 < cumulativeCost state1 1 ∧
    calculateBreakEvenMonth state1 (generateTrafficProjection state1) = (state1.timeframe : ℝ) ∧
    (state1.timeframe : ℝ) = 1 := by
  have hlt : cumulativeRevenue state1 (generateTrafficProjection state1) 1 <
      cumulativeCost state1 1 := by
    rw [state1_cumRev1]
    norm_num [cumulativeCost, state1]
  refine ⟨?_, hlt, ?_, by norm_num [state1]⟩
  · unfold formValid validateCalculatorInputs
    norm_num [state1]
  · unfold calculateBreakEvenMonth
    rw [breakEvenRaw_never state1 (generateTrafficProjection state1) ?_]
    · rw [show ((state1.timeframe : ℕ) : ℝ) = ((1 : ℕ) : ℝ) by norm_num [state1]]
      rw [round1_natCast]
    · intro j h1 h2
      have hj : j = 1 := by norm_num [state1] at h2; omega
      subst hj
      exact hlt

/-- C1 amended: when cumulative revenue never reaches cumulative cost by the
last month, the hook's locator falls back to `timeframe` itself
(indistinguishable from breaking even exactly there), while the chart-utility
locator in `calculations.ts` is the one that returns the distinguished
sentinel `-1`. -/
theorem c1_amended :
    (∀ (s : CalculatorState) (traffic : List ℝ),
      (∀ j, 1 ≤ j → j ≤ s.timeframe →
        cumulativeRevenue s traffic j < cumulativeCost s j) →
      calculateBreakEvenMonth s traffic = (s.timeframe : ℝ)) ∧
    (∀ (p : VisualizationChartDataPoint) (rest : List VisualizationChartDataPoint),
      NoCross p rest → utilsCalculateBreakEvenMonth (p :: rest) = -1) := by
  constructor
  · intro s traffic h
    unfold calculateBreakEvenMonth
    rw [breakEvenRaw_never s traffic h, round1_natCast]
  · intro p rest h
    unfold utilsCalculateBreakEvenMonth
    exact utilsBreakEvenAux_nocross rest p 1 h

/-- Witness for C1's amended claim at concrete inputs: a flat traffic series
never breaks even and yields month 2 = the timeframe; a two-point chart with
no crossover yields the utility sentinel. -/
theorem c1_amended_witness :
    calculateBreakEvenMonth state1w [100, 100, 100] = 2 ∧
    utilsCalculateBreakEvenMonth [chartPoint0, chartPoint1] = -1 := by
  constructor
  · have h := c1_amended.1 state1w [100, 100, 100] ?_
    · rw [h]; norm_num [state1w]
    · intro j h1 h2
      have hj : j = 1 ∨ j = 2 := by norm_num [state1w] at h2; omega
      have e1 : cumulativeRevenue state1w [100, 100, 100] 1 = 0 := by
        show (0 : ℝ) + _ = 0
        norm_num [monthlyRevenue, baselineMonthlyRevenue, state1w]
      rcases hj with hj | hj <;> subst hj
      · rw [e1]; norm_num [cumulativeCost, state1w]
      · show cumulativeRevenue state1w [100, 100, 100] 1 + _ < _
        rw [e1]
        norm_num [monthlyRevenue, baselineMonthlyRevenue, cumulativeCost, state1w]
  · exact c1_amended.2 chartPoint0 [chartPoint1]
      ⟨by norm_num [chartPoint0, chartPoint1], trivial⟩

/-! ### Evaluating the projection on `state2` -/

lemma state2_inc1 : trafficIncrease state2 1 = 1/400 := by
  unfold trafficIncrease
  rw [if_pos (⟨by norm_num [state2], by norm_num⟩ : state2.currentTraffic < 300 ∧ 1 ≤ 3)]
  norm_num [state2]

lemma state2_temp0 : (tempProjected state2).getD 0 0 = 101 := by
  rw [tempProjected_getD state2 0 (by norm_num [state2]), trafficIncrease_zero]
  have h : jsRound (state2.currentTraffic + 0) = (101 : ℤ) := by
    apply jsRound_eq <;> norm_num [state2]
  rw [h]
  norm_num

lemma state2_temp1 : (tempProjected state2).getD 1 0 = 101 := by
  rw [tempProjected_getD state2 1 (by norm_num [state2]), state2_inc1]
  have h : jsRound (state2.currentTraffic + 1/400) = (101 : ℤ) := by
    apply jsRound_eq <;> norm_num [state2]
  rw [h]
  norm_num

lemma state2_proj : generateTrafficProjection state2 = [101, 101] := by
  have htemp : tempProjected state2 = [101, 101] := by
    unfold tempProjected
    rw [show state2.timeframe + 1 = 2 by norm_num [state2]]
    simp only [List.range_succ, List.range_zero, List.nil_append, List.cons_append,
      List.map_cons, List.map_nil]
    have h0 : jsRound (state2.currentTraffic + trafficIncrease state2 0) = (101 : ℤ) := by
      rw [trafficIncrease_zero]
      apply jsRound_eq <;> norm_num [state2]
    have h1 : jsRound (state2.currentTraffic + trafficIncrease state2 1) = (101 : ℤ) := by
      rw [state2_inc1]
      apply jsRound_eq <;> norm_num [state2]
    rw [h0, h1]
    norm_num
  unfold generateTrafficProjection
  have hbranch : projectedBeforeEnsure state2 = tempProjected state2 := by
    unfold projectedBeforeEnsure
    rw [if_neg]
    intro hcon
    apply hcon.1
    unfold finalGenerated
    rw [show state2.timeframe = 1 by norm_num [state2], state2_temp1]
    norm_num [state2]
  rw [hbranch, htemp]
  unfold ensureFinalMonthMatchesTarget
  norm_num [state2]

/-- C2, claim as stated is false: `state2` (fractional current traffic 100.5)
is validator-accepted, but the projected series starts at 101, not at the
current traffic. -/
theorem c2_counterexample :
    formValid state2 ∧
    (generateTrafficProjection state2).getD 0 0 ≠ state2.currentTraffic := by
  constructor
  · unfold formValid validateCalculatorInputs
    norm_num [state2]
  · rw [state2_proj]
    norm_num [state2]

/-- C2 amended: for validator-accepted inputs whose current traffic is a
whole number, the projection has length `timeframe + 1`, starts exactly at
the current traffic, and ends exactly at the target (for fractional current
traffic the month-0 value is its rounding instead). -/
theorem c2_amended (s : CalculatorState) (c : ℤ) (hc : s.currentTraffic = (c : ℝ))
    (h : formValid s) :
    (generateTrafficProjection s).length = s.timeframe + 1 ∧
    (generateTrafficProjection s).getD 0 0 = s.currentTraffic ∧
    (generateTrafficProjection s).getD s.timeframe 0 = s.targetTraffic := by
  obtain ⟨-, -, -, -, -, -, hN1, -⟩ := formValid_facts s h
  refine ⟨generateTrafficProjection_length s, ?_, generateTrafficProjection_final s⟩
  rw [generateTrafficProjection_getD_ne s 0 (by omega)]
  unfold projectedBeforeEnsure
  split_ifs with hb
  · rw [getD_range_map _ _ _ _ (by omega)]
    rw [if_pos rfl]
  · rw [tempProjected_getD s 0 (by omega), trafficIncrease_zero, add_zero, hc,
      jsRound_intCast]

/-- Witness for C2's amended claim at the whole-number input `state2w`. -/
theorem c2_amended_witness :
    (generateTrafficProjection state2w).length = state2w.timeframe + 1 ∧
    (generateTrafficProjection state2w).getD 0 0 = state2w.currentTraffic ∧
    (generateTrafficProjection state2w).getD state2w.timeframe 0 = state2w.targetTraffic :=
  c2_amended state2w 100 (by norm_num [state2w])
    (by unfold formValid validateCalculatorInputs; norm_num [state2w])

/-! ### The interpolation formula (C3) -/

lemma state3_cumRev1 : cumulativeRevenue state3 traffic3 1 = 500 := by
  show (0 : ℝ) + _ = 500
  norm_num [monthlyRevenue, baselineMonthlyRevenue, state3, traffic3]

lemma state3_cumRev2 : cumulativeRevenue state3 traffic3 2 = 3000 := by
  show cumulativeRevenue state3 traffic3 1 + _ = 3000
  rw [state3_cumRev1]
  norm_num [monthlyRevenue, baselineMonthlyRevenue, state3, traffic3]

/-- C3 amended: at a first crossover in month `i > 1` the locator returns
`(i-1) + d / (d + s)` where the deficit `d` is measured against the *current*
month's cumulative cost, `d = cumulativeCost[i] - cumulativeRevenueIncrease[i-1]`
(not the previous month's cost as the spec words it); a crossover at month 1
returns exactly 1. -/
theorem c3_amended (s : CalculatorState) (traffic : List ℝ) (i : ℕ)
    (hm : 0 < s.monthlySEOCost) (hi1 : 1 ≤ i) (hiN : i ≤ s.timeframe)
    (hprev : ∀ j, 1 ≤ j → j < i → cumulativeRevenue s traffic j < cumulativeCost s j)
    (hcross : cumulativeCost s i ≤ cumulativeRevenue s traffic i) :
    breakEvenRaw s traffic =
      if i = 1 then 1
      else ((i : ℝ) - 1) +
        (cumulativeCost s i - cumulativeRevenue s traffic (i - 1)) /
          ((cumulativeCost s i - cumulativeRevenue s traffic (i - 1)) +
            (cumulativeRevenue s traffic i - cumulativeCost s i)) := by
  unfold breakEvenRaw
  rw [breakEvenAux_first s traffic i hprev hcross s.timeframe 1 le_rfl hi1 (by omega)]
  rcases eq_or_lt_of_le hi1 with h1 | h1
  · rw [if_neg (by omega : ¬(1 < i ∧ _)), if_pos h1.symm, ← h1]
    norm_num
  · have hd : cumulativeRevenue s traffic (i - 1) < cumulativeCost s i := by
      have h2 := hprev (i - 1) (by omega) (by omega)
      have h3 : cumulativeCost s (i - 1) ≤ cumulativeCost s i := by
        unfold cumulativeCost
        have : ((i - 1 : ℕ) : ℝ) ≤ (i : ℝ) := by
          push_cast [Nat.cast_sub hi1]
          linarith
        nlinarith
      linarith
    rw [if_pos ⟨h1, hd⟩, if_neg (by omega : ¬i = 1)]
    unfold interpolate
    rfl

/-- Witness for C3's amended claim: `state3`/`traffic3` cross between months
1 and 2, and the locator's raw value matches the current-month-deficit
formula. -/
theorem c3_amended_witness :
    breakEvenRaw state3 traffic3 =
      if (2 : ℕ) = 1 then 1
      else (((2 : ℕ) : ℝ) - 1) +
        (cumulativeCost state3 2 - cumulativeRevenue state3 traffic3 (2 - 1)) /
          ((cumulativeCost state3 2 - cumulativeRevenue state3 traffic3 (2 - 1)) +
            (cumulativeRevenue state3 traffic3 2 - cumulativeCost state3 2)) := by
  apply c3_amended state3 traffic3 2 (by norm_num [state3]) (by norm_num)
    (by norm_num [state3])
  · intro j h1 h2
    have hj : j = 1 := by omega
    subst hj
    rw [state3_cumRev1]
    norm_num [cumulativeCost, state3]
  · rw [state3_cumRev2]
    norm_num [cumulativeCost, state3]

/-- C3, claim as stated is false: at the first crossover (month 2) the
locator returns 8/5, while the spec's formula — deficit measured against the
previous month's cumulative cost — gives 4/3. -/
theorem c3_counterexample :
    cumulativeRevenue state3 traffic3 1 < cumulativeCost state3 1 ∧
    cumulativeCost state3 2 ≤ cumulativeRevenue state3 traffic3 2 ∧
    breakEvenRaw state3 traffic3 = 8/5 ∧
    ((2 : ℝ) - 1) +
      (cumulativeCost state3 1 - cumulativeRevenue state3 traffic3 1) /
        ((cumulativeCost state3 1 - cumulativeRevenue state3 traffic3 1) +
          (cumulativeRevenue state3 traffic3 2 - cumulativeCost state3 2)) = 4/3 ∧
    (8/5 : ℝ) ≠ 4/3 := by
  have hc1 : cumulativeCost state3 1 = 1000 := by norm_num [cumulativeCost, state3]
  have hc2 : cumulativeCost state3 2 = 2000 := by norm_num [cumulativeCost, state3]
  have hprev : ∀ j, 1 ≤ j → j < 2 →
      cumulativeRevenue state3 traffic3 j < cumulativeCost state3 j := by
    intro j h1 h2
    have hj : j = 1 := by omega
    subst hj
    rw [state3_cumRev1, hc1]
    norm_num
  have hcross : cumulativeCost state3 2 ≤ cumulativeRevenue state3 traffic3 2 := by
    rw [state3_cumRev2, hc2]
    norm_num
  refine ⟨by rw [state3_cumRev1, hc1]; norm_num, hcross, ?_, ?_, by norm_num⟩
  · unfold breakEvenRaw
    rw [breakEvenAux_first state3 traffic3 2 hprev hcross state3.timeframe 1 le_rfl
      (by norm_num) (by norm_num [state3])]
    rw [if_pos ⟨by norm_num, by rw [show (2:ℕ) - 1 = 1 by rfl, state3_cumRev1, hc2]; norm_num⟩]
    unfold interpolate
    rw [show (2:ℕ) - 1 = 1 by rfl, state3_cumRev1, state3_cumRev2, hc2]
    norm_num
  · rw [state3_cumRev1, state3_cumRev2, hc1, hc2]
    norm_num

/-! ### Evaluating the safe arithmetic -/

lemma safeMultiply_small (a b : ℝ) (ha : |a| ≤ maxSafeInteger) (hb : |b| ≤ maxSafeInteger) :
    safeMultiply a b = safeRound (a * b) := by
  unfold safeMultiply
  rw [if_neg]
  push_neg
  exact ⟨ha, hb⟩

lemma safeRound_exact (x : ℝ) (n : ℤ) (h : x * 100 = n) : safeRound x = (n : ℝ) / 100 := by
  apply safeRound_eq <;> rw [h] <;> norm_num

lemma safeMultiply_eval (a b : ℝ) (n : ℤ) (ha : |a| ≤ maxSafeInteger)
    (hb : |b| ≤ maxSafeInteger) (h : a * b * 100 = n) :
    safeMultiply a b = (n : ℝ) / 100 := by
  rw [safeMultiply_small a b ha hb, safeRound_exact _ n h]

/-! ### The precision guard (C7) -/

/-- Any input whose revenue product exceeds the safe-integer limit makes
`validatePrecisionLimits` return a message (possibly one of its earlier
magnitude messages). -/
lemma validatePrecisionLimits_some (s : CalculatorState)
    (h : s.targetTraffic * (s.conversionRate / 100) * s.averageOrderValue > maxSafeInteger) :
    ∃ msg, validatePrecisionLimits s = some msg := by
  unfold validatePrecisionLimits
  split_ifs with h1 h2 h3 h4 h5 <;> first | exact ⟨_, rfl⟩ | exact absurd h h5

/-- C7, claim as stated is false: `state7x` has a revenue product above the
safe-integer limit, yet `calculateResults` reports a `targetTraffic` field
error (the target-vs-current check runs first), not the reserved
calculation-level key. -/
theorem c7_counterexample :
    state7x.targetTraffic * (state7x.conversionRate / 100) * state7x.averageOrderValue >
      maxSafeInteger ∧
    calculateResults state7x =
      .error (.targetTraffic, "Target traffic must be greater than current traffic") ∧
    ErrKey.targetTraffic ≠ ErrKey.calculationError := by
  refine ⟨by norm_num [state7x, maxSafeInteger], ?_, by simp⟩
  unfold calculateResults
  rw [if_neg (by norm_num [state7x]), if_pos (by norm_num [state7x])]

/-- C7 amended: for every input that passes the earlier inline validations
(required fields nonzero, target above current, timeframe within 1..60) and
whose product `targetTraffic * conversionRate/100 * averageOrderValue`
exceeds the platform safe-integer limit, the computation stops with a single
message under the reserved `calculationError` key and no result is
produced. -/
theorem c7_amended (s : CalculatorState)
    (hreq : ¬(s.currentTraffic = 0 ∨ s.targetTraffic = 0 ∨ s.timeframe = 0 ∨
      s.conversionRate = 0 ∨ s.averageOrderValue = 0))
    (htc : s.currentTraffic < s.targetTraffic) (hN1 : 1 ≤ s.timeframe) (hN2 : s.timeframe ≤ 60)
    (hprod : s.targetTraffic * (s.conversionRate / 100) * s.averageOrderValue >
      maxSafeInteger) :
    isCalcError (calculateResults s) := by
  obtain ⟨msg, hmsg⟩ := validatePrecisionLimits_some s hprod
  unfold calculateResults
  rw [if_neg hreq, if_neg (not_le.mpr htc), if_neg (by omega : ¬(s.timeframe < 1 ∨ 60 < s.timeframe))]
  simp only [hmsg]
  trivial

/-- Witness for C7's amended claim at `state7w`. -/
theorem c7_amended_witness : isCalcError (calculateResults state7w) :=
  c7_amended state7w (by norm_num [state7w]) (by norm_num [state7w]) (by norm_num [state7w])
    (by norm_num [state7w]) (by norm_num [state7w, maxSafeInteger])

/-! ### Target-not-above-current inputs (C8) -/

/-- C8 confirmed: with all required fields positive but the target not above
the current traffic, the field validator flags `targetTraffic` and the
compute pipeline stops with that same field error, producing no result. -/
theorem c8_theorem (s : CalculatorState) (h1 : 0 < s.currentTraffic)
    (h2 : 0 < s.targetTraffic) (h3 : 0 < s.conversionRate) (h4 : 0 < s.averageOrderValue)
    (h5 : 0 < s.monthlySEOCost) (h6 : 1 ≤ s.timeframe)
    (h7 : s.targetTraffic ≤ s.currentTraffic) :
    (validateCalculatorInputs s).targetTraffic =
      some "Target traffic must be greater than current traffic" ∧
    calculateResults s =
      .error (.targetTraffic, "Target traffic must be greater than current traffic") := by
  constructor
  · show (if s.targetTraffic = 0 then _ else _) = _
    rw [if_neg h2.ne', if_neg (not_lt.mpr h2.le), if_pos h7]
  · unfold calculateResults
    rw [if_neg (by push_neg; exact ⟨h1.ne', h2.ne', by omega, h3.ne', h4.ne'⟩), if_pos h7]

/-- Witness for C8 at `state8w` (target 500 below current 1000). -/
theorem c8_witness :
    (validateCalculatorInputs state8w).targetTraffic =
      some "Target traffic must be greater than current traffic" ∧
    calculateResults state8w =
      .error (.targetTraffic, "Target traffic must be greater than current traffic") :=
  c8_theorem state8w (by norm_num [state8w]) (by norm_num [state8w]) (by norm_num [state8w])
    (by norm_num [state8w]) (by norm_num [state8w]) (by norm_num [state8w])
    (by norm_num [state8w])

/-! ### Sanity checks (C6) -/

/-- C6 confirmed: whenever the computed metrics trip a sanity bound (ROI over
10000%, revenue growth factor over 100 with positive initial revenue, or a
break-even below one month and not zero), the pipeline returns a typed
failure under the reserved `calculationError` key and no result. -/
theorem c6_theorem (s : CalculatorState) (hv : hookValid s)
    (hsanity : roiOf s > 10000 ∨
      (projectedRevenueOf s / initialRevenueOf s > 100 ∧ initialRevenueOf s > 0) ∨
      (breakEvenOf s < 1 ∧ breakEvenOf s ≠ 0)) :
    isCalcError (calculateResults s) := by
  obtain ⟨hreq, htc, hN1, hN2, hprec⟩ := hv
  unfold calculateResults
  rw [if_neg hreq, if_neg (not_le.mpr htc),
    if_neg (by omega : ¬(s.timeframe < 1 ∨ 60 < s.timeframe))]
  simp only [hprec]
  by_cases h0 : totalSEOCostOf s = 0
  · rw [if_pos h0]; trivial
  rw [if_neg h0]
  by_cases hroi : roiOf s > 10000
  · rw [if_pos hroi]; trivial
  rw [if_neg hroi]
  by_cases hgrow : projectedRevenueOf s / initialRevenueOf s > 100 ∧ initialRevenueOf s > 0
  · rw [if_pos hgrow]; trivial
  rw [if_neg hgrow]
  by_cases hbe : breakEvenOf s < 1 ∧ breakEvenOf s ≠ 0
  · rw [if_pos hbe]; trivial
  rcases hsanity with h | h | h
  · exact absurd h hroi
  · exact absurd h hgrow
  · exact absurd h hbe

lemma state6_initial : initialRevenueOf state6 = 100 := by
  unfold initialRevenueOf
  rw [safeMultiply_eval state6.currentTraffic (state6.conversionRate / 100) 1000
    (by norm_num [state6, maxSafeInteger]) (by rw [abs_le]; norm_num [state6, maxSafeInteger])
    (by norm_num [state6])]
  rw [safeMultiply_eval _ state6.averageOrderValue 10000
    (by rw [abs_le]; norm_num [maxSafeInteger]) (by norm_num [state6, maxSafeInteger])
    (by norm_num [state6])]
  norm_num

lemma state6_projected : projectedRevenueOf state6 = 200 := by
  unfold projectedRevenueOf
  rw [safeMultiply_eval state6.targetTraffic (state6.conversionRate / 100) 2000
    (by norm_num [state6, maxSafeInteger]) (by rw [abs_le]; norm_num [state6, maxSafeInteger])
    (by norm_num [state6])]
  rw [safeMultiply_eval _ state6.averageOrderValue 20000
    (by rw [abs_le]; norm_num [maxSafeInteger]) (by norm_num [state6, maxSafeInteger])
    (by norm_num [state6])]
  norm_num

lemma state6_totalCost : totalSEOCostOf state6 = 3/100 := by
  unfold totalSEOCostOf
  rw [safeMultiply_eval state6.monthlySEOCost ((state6.timeframe : ℕ) : ℝ) 3
    (by rw [abs_le]; norm_num [state6, maxSafeInteger]) (by norm_num [state6, maxSafeInteger])
    (by norm_num [state6])]
  norm_num

lemma state6_roi : roiOf state6 = 999900 := by
  have hrevInc : revenueIncreaseOf state6 = 100 := by
    unfold revenueIncreaseOf
    rw [state6_projected, state6_initial, safeRound_exact _ 10000 (by norm_num)]
    norm_num
  have hti : totalIncreaseOf state6 = 300 := by
    unfold totalIncreaseOf
    rw [hrevInc, safeMultiply_eval _ ((state6.timeframe : ℕ) : ℝ) 30000
      (by rw [abs_le]; norm_num [maxSafeInteger]) (by norm_num [state6, maxSafeInteger])
      (by norm_num [state6])]
    norm_num
  have htp : totalProfitOf state6 = 29997/100 := by
    unfold totalProfitOf
    rw [hti, state6_totalCost, safeRound_exact _ 29997 (by norm_num)]
    norm_num
  unfold roiOf
  rw [htp, state6_totalCost, safeRound_exact _ 99990000 (by norm_num)]
  norm_num

/-- Witness for C6: `state6` (one-cent monthly cost) passes all validations
and produces an ROI of 999900%, tripping the 10000% ceiling into a
`calculationError` failure. -/
theorem c6_witness : isCalcError (calculateResults state6) := by
  apply c6_theorem state6
  · refine ⟨by norm_num [state6], by norm_num [state6], by norm_num [state6],
      by norm_num [state6], ?_⟩
    unfold validatePrecisionLimits
    norm_num [state6, maxSafeInteger]
  · exact Or.inl (by rw [state6_roi]; norm_num)

/-! ### Whole-cent arithmetic (C4) -/

lemma safeRound_cents_exists (x : ℝ) : ∃ n : ℤ, safeRound x * 100 = (n : ℝ) := by
  refine ⟨jsRound (x * 10 ^ 2), ?_⟩
  unfold safeRound jsRoundTo
  rw [show ((10 : ℝ) ^ 2) = 100 by norm_num, div_mul_cancel₀ _ (by norm_num : (100:ℝ) ≠ 0)]

lemma safeMultiply_cents_exists (a b : ℝ) : ∃ n : ℤ, safeMultiply a b * 100 = (n : ℝ) := by
  unfold safeMultiply
  split_ifs <;> exact safeRound_cents_exists _

lemma safeRound_sub_cents (x y : ℝ) (hx : ∃ n : ℤ, x * 100 = (n : ℝ))
    (hy : ∃ n : ℤ, y * 100 = (n : ℝ)) : safeRound (x - y) = x - y := by
  obtain ⟨n, hn⟩ := hx
  obtain ⟨m, hm⟩ := hy
  have hxy : x - y = ((n - m : ℤ) : ℝ) / 100 := by
    push_cast
    field_simp
    linarith
  rw [hxy, safeRound_cents]

/-- C4 amended: the returned `roiPercent` is the cent-rounding of
`(revenueIncrease * timeframe - totalCost) / totalCost * 100`, where
`revenueIncrease` is the *final month's* revenue increase
(`projectedRevenue - initialRevenue`) — not the cumulative month-by-month sum
the spec's formula prescribes. -/
theorem c4_amended (s : CalculatorState) (hN : s.timeframe ≤ 60)
    (hri : |revenueIncreaseOf s| ≤ maxSafeInteger)
    (hexact : safeRound (revenueIncreaseOf s * ((s.timeframe : ℕ) : ℝ)) =
      revenueIncreaseOf s * ((s.timeframe : ℕ) : ℝ)) :
    roiOf s =
      safeRound ((revenueIncreaseOf s * ((s.timeframe : ℕ) : ℝ) - totalSEOCostOf s) /
        totalSEOCostOf s * 100) := by
  have hNsmall : |((s.timeframe : ℕ) : ℝ)| ≤ maxSafeInteger := by
    rw [abs_le]
    constructor
    · have : (0:ℝ) ≤ ((s.timeframe : ℕ) : ℝ) := Nat.cast_nonneg _
      unfold maxSafeInteger
      linarith
    · have : ((s.timeframe : ℕ) : ℝ) ≤ 60 := by exact_mod_cast hN
      unfold maxSafeInteger
      linarith
  have hti : totalIncreaseOf s = revenueIncreaseOf s * ((s.timeframe : ℕ) : ℝ) := by
    unfold totalIncreaseOf
    rw [safeMultiply_small _ _ hri hNsmall, hexact]
  have htp : totalProfitOf s =
      revenueIncreaseOf s * ((s.timeframe : ℕ) : ℝ) - totalSEOCostOf s := by
    unfold totalProfitOf
    rw [hti]
    apply safeRound_sub_cents
    · rw [← hexact]
      exact safeRound_cents_exists _
    · exact safeMultiply_cents_exists _ _
  unfold roiOf
  rw [htp]

/-! ### Evaluating the pipeline on `state4` -/

lemma state4_temp : tempProjected state4 = [100, 101, 101, 102] := by
  unfold tempProjected
  rw [show state4.timeframe + 1 = 4 by norm_num [state4]]
  simp only [List.range_succ, List.range_zero, List.nil_append, List.cons_append,
    List.map_cons, List.map_nil]
  have hinc : ∀ i : ℕ, i ≤ 3 → trafficIncrease state4 i = (1/2 : ℝ) * i := by
    intro i hi
    unfold trafficIncrease
    rw [if_pos (⟨by norm_num [state4], hi⟩ : state4.currentTraffic < 300 ∧ i ≤ 3)]
    norm_num [state4]
  have h0 : jsRound (state4.currentTraffic + trafficIncrease state4 0) = (100 : ℤ) := by
    rw [hinc 0 (by norm_num)]
    apply jsRound_eq <;> norm_num [state4]
  have h1 : jsRound (state4.currentTraffic + trafficIncrease state4 1) = (101 : ℤ) := by
    rw [hinc 1 (by norm_num)]
    apply jsRound_eq <;> norm_num [state4]
  have h2 : jsRound (state4.currentTraffic + trafficIncrease state4 2) = (101 : ℤ) := by
    rw [hinc 2 (by norm_num)]
    apply jsRound_eq <;> norm_num [state4]
  have h3 : jsRound (state4.currentTraffic + trafficIncrease state4 3) = (102 : ℤ) := by
    rw [hinc 3 (by norm_num)]
    apply jsRound_eq <;> norm_num [state4]
  rw [h0, h1, h2, h3]
  norm_num

lemma state4_final : finalGenerated state4 = 102 := by
  unfold finalGenerated
  rw [state4_temp, show state4.timeframe = 3 by norm_num [state4]]
  norm_num

lemma state4_proj : generateTrafficProjection state4 = [100, 150, 150, 200] := by
  have hfactor : correctionFactor state4 = 50 := by
    unfold correctionFactor
    rw [state4_final]
    norm_num [state4]
  have hbranch : projectedBeforeEnsure state4 = [100, 150, 150, 200] := by
    unfold projectedBeforeEnsure
    rw [if_pos ⟨by rw [state4_final]; norm_num [state4], by norm_num [state4]⟩]
    rw [show state4.timeframe + 1 = 4 by norm_num [state4]]
    simp only [List.range_succ, List.range_zero, List.nil_append, List.cons_append,
      List.map_cons, List.map_nil]
    rw [state4_temp, hfactor]
    have e150 : jsRound ((150 : ℝ)) = (150 : ℤ) := by
      apply jsRound_eq <;> norm_num
    norm_num [state4, e150]
  unfold generateTrafficProjection
  rw [hbranch]
  unfold ensureFinalMonthMatchesTarget
  norm_num [state4]

lemma state4_cumRev : cumulativeRevenue state4 (generateTrafficProjection state4) 1 = 50 ∧
    cumulativeRevenue state4 (generateTrafficProjection state4) 2 = 100 ∧
    cumulativeRevenue state4 (generateTrafficProjection state4) 3 = 200 := by
  rw [state4_proj]
  have h1 : cumulativeRevenue state4 [100, 150, 150, 200] 1 = 50 := by
    show (0 : ℝ) + _ = 50
    norm_num [monthlyRevenue, baselineMonthlyRevenue, state4]
  have h2 : cumulativeRevenue state4 [100, 150, 150, 200] 2 = 100 := by
    show cumulativeRevenue state4 [100, 150, 150, 200] 1 + _ = 100
    rw [h1]
    norm_num [monthlyRevenue, baselineMonthlyRevenue, state4]
  have h3 : cumulativeRevenue state4 [100, 150, 150, 200] 3 = 200 := by
    show cumulativeRevenue state4 [100, 150, 150, 200] 2 + _ = 200
    rw [h2]
    norm_num [monthlyRevenue, baselineMonthlyRevenue, state4]
  exact ⟨h1, h2, h3⟩

lemma state4_breakEven : breakEvenOf state4 = 3 := by
  unfold breakEvenOf calculateBreakEvenMonth
  obtain ⟨h1, h2, h3⟩ := state4_cumRev
  rw [breakEvenRaw_never state4 _ ?_]
  · rw [show ((state4.timeframe : ℕ) : ℝ) = ((3 : ℕ) : ℝ) by norm_num [state4],
      round1_natCast]
    norm_num
  · intro j hj1 hj2
    have hj : j = 1 ∨ j = 2 ∨ j = 3 := by norm_num [state4] at hj2; omega
    rcases hj with hj | hj | hj <;> subst hj
    · rw [h1]; norm_num [cumulativeCost, state4]
    · rw [h2]; norm_num [cumulativeCost, state4]
    · rw [h3]; norm_num [cumulativeCost, state4]

lemma state4_initial : initialRevenueOf state4 = 100 := by
  unfold initialRevenueOf
  rw [safeMultiply_eval state4.currentTraffic (state4.conversionRate / 100) 1000
    (by norm_num [state4, maxSafeInteger]) (by rw [abs_le]; norm_num [state4, maxSafeInteger])
    (by norm_num [state4])]
  rw [safeMultiply_eval _ state4.averageOrderValue 10000
    (by rw [abs_le]; norm_num [maxSafeInteger]) (by norm_num [state4, maxSafeInteger])
    (by norm_num [state4])]
  norm_num

lemma state4_projected : projectedRevenueOf state4 = 200 := by
  unfold projectedRevenueOf
  rw [safeMultiply_eval state4.targetTraffic (state4.conversionRate / 100) 2000
    (by norm_num [state4, maxSafeInteger]) (by rw [abs_le]; norm_num [state4, maxSafeInteger])
    (by norm_num [state4])]
  rw [safeMultiply_eval _ state4.averageOrderValue 20000
    (by rw [abs_le]; norm_num [maxSafeInteger]) (by norm_num [state4, maxSafeInteger])
    (by norm_num [state4])]
  norm_num

lemma state4_revInc : revenueIncreaseOf state4 = 100 := by
  unfold revenueIncreaseOf
  rw [state4_projected, state4_initial, safeRound_exact _ 10000 (by norm_num)]
  norm_num

lemma state4_totalCost : totalSEOCostOf state4 = 300 := by
  unfold totalSEOCostOf
  rw [safeMultiply_eval state4.monthlySEOCost ((state4.timeframe : ℕ) : ℝ) 30000
    (by norm_num [state4, maxSafeInteger]) (by rw [abs_le]; norm_num [state4, maxSafeInteger])
    (by norm_num [state4])]
  norm_num

lemma state4_roi : roiOf state4 = 0 := by
  have hti : totalIncreaseOf state4 = 300 := by
    unfold totalIncreaseOf
    rw [state4_revInc, safeMultiply_eval _ ((state4.timeframe : ℕ) : ℝ) 30000
      (by rw [abs_le]; norm_num [maxSafeInteger]) (by rw [abs_le]; norm_num [state4, maxSafeInteger])
      (by norm_num [state4])]
    norm_num
  have htp : totalProfitOf state4 = 0 := by
    unfold totalProfitOf
    rw [hti, state4_totalCost, safeRound_exact _ 0 (by norm_num)]
    norm_num
  unfold roiOf
  rw [htp, state4_totalCost, safeRound_exact _ 0 (by norm_num)]
  norm_num

lemma state4_results : calculateResults state4 =
    .ok { initialRevenue := initialRevenueOf state4
          projectedRevenue := projectedRevenueOf state4
          revenueIncrease := revenueIncreaseOf state4
          averageMonthlyIncrease := averageMonthlyIncreaseOf state4
          totalSEOCost := totalSEOCostOf state4
          roi := roiOf state4
          breakEvenMonth := breakEvenOf state4 } := by
  unfold calculateResults
  rw [if_neg (by norm_num [state4]), if_neg (by norm_num [state4]),
    if_neg (by norm_num [state4])]
  have hprec : validatePrecisionLimits state4 = none := by
    unfold validatePrecisionLimits
    norm_num [state4, maxSafeInteger]
  simp only [hprec]
  rw [if_neg (by rw [state4_totalCost]; norm_num),
    if_neg (by rw [state4_roi]; norm_num),
    if_neg (by rw [state4_projected, state4_initial]; norm_num),
    if_neg (by rw [state4_breakEven]; norm_num),
    if_neg (by rw [generateTrafficProjection_final]; exact fun h => h rfl)]

/-- C4, claim as stated is false: on the validator-accepted `state4` the
returned `roiPercent` is 0, while the spec's cumulative formula
`(cumulativeRevenueIncrease[N] - totalCost) / totalCost * 100` evaluates to
-100/3 on the very same projection. -/
theorem c4_counterexample :
    formValid state4 ∧ roiResult state4 = some 0 ∧ specROIPercent state4 = -100/3 ∧
    ((0 : ℝ) ≠ -100/3) := by
  refine ⟨?_, ?_, ?_, by norm_num⟩
  · unfold formValid validateCalculatorInputs
    norm_num [state4]
  · unfold roiResult
    rw [state4_results]
    rw [state4_roi]
  · unfold specROIPercent specCumulativeRevenue
    rw [show state4.timeframe = 3 by norm_num [state4], state4_cumRev.2.2]
    norm_num [state4]

/-- Witness for C4's amended claim at `state4`: ROI 0 matches the
final-month-increase formula (100 * 3 - 300) / 300 * 100 = 0. -/
theorem c4_amended_witness :
    roiOf state4 =
      safeRound ((revenueIncreaseOf state4 * ((state4.timeframe : ℕ) : ℝ) -
        totalSEOCostOf state4) / totalSEOCostOf state4 * 100) :=
  c4_amended state4 (by norm_num [state4])
    (by rw [state4_revInc, abs_le]; norm_num [maxSafeInteger])
    (by rw [state4_revInc]
        rw [show (100 : ℝ) * ((state4.timeframe : ℕ) : ℝ) = ((300 : ℤ) : ℝ) by
          norm_num [state4]]
        rw [safeRound_intCast])

/-! ### Bounds on the growth-model parameters -/

lemma domainAuthorityBase_nonneg (ct : ℝ) : 0 ≤ domainAuthorityBase ct := by
  unfold domainAuthorityBase
  split_ifs <;> norm_num

lemma growthRate_nonneg (s : CalculatorState) : 0 ≤ growthRate s := by
  unfold growthRate
  apply mul_nonneg (domainAuthorityBase_nonneg _)
  unfold competitionGrowthMul
  cases s.competitionLevel <;> norm_num

lemma midpoint_le_timeframe (s : CalculatorState) :
    ((midpoint s : ℤ) : ℝ) ≤ ((s.timeframe : ℕ) : ℝ) := by
  have key : ∀ f : ℝ, 0 ≤ f → f ≤ 0.7 →
      ((jsRound ((s.timeframe : ℝ) * f) : ℤ) : ℝ) ≤ ((s.timeframe : ℕ) : ℝ) := by
    intro f h0 h1
    have hN : (0:ℝ) ≤ (s.timeframe : ℝ) := Nat.cast_nonneg _
    have h2 : jsRound ((s.timeframe : ℝ) * f) ≤ (s.timeframe : ℤ) := by
      apply jsRound_le_of
      push_cast
      nlinarith
    exact_mod_cast h2
  unfold midpoint
  split_ifs
  · exact key 0.7 (by norm_num) (by norm_num)
  · exact key 0.65 (by norm_num) (by norm_num)
  · exact key 0.6 (by norm_num) (by norm_num)

lemma rampUpBase_bounds (ct : ℝ) : 2 ≤ rampUpBase ct ∧ rampUpBase ct ≤ 7 := by
  unfold rampUpBase
  split_ifs <;> norm_num

lemma rampUpPeriod_bounds (s : CalculatorState) :
    1 ≤ rampUpPeriod s ∧ rampUpPeriod s ≤ 8 := by
  obtain ⟨h1, h2⟩ := rampUpBase_bounds s.currentTraffic
  unfold rampUpPeriod
  cases s.competitionLevel with
  | low =>
    dsimp only
    constructor
    · exact le_max_left _ _
    · apply max_le (by norm_num)
      linarith
  | medium =>
    dsimp only
    constructor <;> linarith
  | high =>
    dsimp only
    constructor <;> linarith

/-- The raw traffic increase is nonnegative whenever the target is above the
current traffic. -/
lemma trafficIncrease_nonneg (s : CalculatorState) (h : s.currentTraffic ≤ s.targetTraffic)
    (i : ℕ) : 0 ≤ trafficIncrease s i := by
  have hdiff : 0 ≤ s.targetTraffic - s.currentTraffic := by linarith
  have hramp := (rampUpPeriod_bounds s).1
  unfold trafficIncrease
  split_ifs
  · exact mul_nonneg (mul_nonneg hdiff (by norm_num)) (Nat.cast_nonneg _)
  · exact mul_nonneg (mul_nonneg hdiff (by norm_num)) (Nat.cast_nonneg _)
  · exact mul_nonneg (mul_nonneg hdiff (by norm_num)) (Nat.cast_nonneg _)
  · have e1 : (0:ℝ) < 1 + Real.exp (-growthRate s * ((i:ℝ) - ((midpoint s : ℤ) : ℝ))) := by
      have := Real.exp_pos (-growthRate s * ((i:ℝ) - ((midpoint s : ℤ) : ℝ)))
      linarith
    have e2 : Real.exp (-(i:ℝ) / rampUpPeriod s) ≤ 1 := by
      have heq : -(i:ℝ) / rampUpPeriod s = -((i:ℝ) / rampUpPeriod s) := by ring
      rw [heq]
      apply exp_neg_le_one
      positivity
    have e3 : (0:ℝ) ≤ 1 / (1 + Real.exp (-growthRate s * ((i:ℝ) - ((midpoint s : ℤ) : ℝ)))) := by
      positivity
    apply mul_nonneg (mul_nonneg hdiff e3)
    linarith

/-! ### The boundary-correction divisor (C10) -/

lemma state10_growth : growthRate state10 = 0.056 := by
  unfold growthRate domainAuthorityBase competitionGrowthMul
  norm_num [state10]

lemma state10_mid : midpoint state10 = 3 := by
  unfold midpoint
  rw [if_pos (by norm_num [state10])]
  rw [show ((state10.timeframe : ℕ) : ℝ) * 0.7 = 2.8 by norm_num [state10]]
  apply jsRound_eq <;> norm_num

lemma state10_ramp : rampUpPeriod state10 = 8 := by
  unfold rampUpPeriod rampUpBase
  norm_num [state10]

lemma state10_final : finalGenerated state10 = 200 := by
  unfold finalGenerated
  rw [show state10.timeframe = 4 by norm_num [state10]]
  rw [tempProjected_getD state10 4 (by norm_num [state10])]
  have hinc : trafficIncrease state10 4 =
      (1 : ℝ) * (1 / (1 + Real.exp (-(0.056 : ℝ)))) * (1 - Real.exp (-(1/2 : ℝ))) := by
    unfold trafficIncrease
    rw [if_neg (by norm_num), if_neg (by norm_num), if_neg (by norm_num),
      state10_growth, state10_mid, state10_ramp]
    have h1 : -(0.056 : ℝ) * (((4 : ℕ) : ℝ) - ((3 : ℤ) : ℝ)) = -(0.056 : ℝ) := by
      push_cast; ring
    have h2 : -((4 : ℕ) : ℝ) / (8 : ℝ) = -(1/2 : ℝ) := by push_cast; norm_num
    rw [h1, h2]
    norm_num [state10]
  rw [hinc]
  have e1 : (0.944 : ℝ) ≤ Real.exp (-(0.056 : ℝ)) := by
    have := one_sub_le_exp_neg (0.056 : ℝ)
    linarith
  have e2 : (1/2 : ℝ) ≤ Real.exp (-(1/2 : ℝ)) := by
    have := one_sub_le_exp_neg (1/2 : ℝ)
    linarith
  have e3 : Real.exp (-(0.056 : ℝ)) ≤ 1 := exp_neg_le_one (by norm_num)
  have e4 : Real.exp (-(1/2 : ℝ)) ≤ 1 := exp_neg_le_one (by norm_num)
  have hpos : (0 : ℝ) < 1 + Real.exp (-(0.056 : ℝ)) := by linarith
  have hval : (1 : ℝ) * (1 / (1 + Real.exp (-(0.056 : ℝ)))) * (1 - Real.exp (-(1/2 : ℝ))) <
      1/2 := by
    rw [one_mul, one_div, inv_mul_eq_div, div_lt_iff hpos]
    nlinarith
  have hval0 : (0 : ℝ) ≤
      (1 : ℝ) * (1 / (1 + Real.exp (-(0.056 : ℝ)))) * (1 - Real.exp (-(1/2 : ℝ))) := by
    apply mul_nonneg (by positivity)
    linarith
  have h200 : jsRound ((200 : ℝ) +
      (1 : ℝ) * (1 / (1 + Real.exp (-(0.056 : ℝ)))) * (1 - Real.exp (-(1/2 : ℝ)))) =
      (200 : ℤ) := by
    apply jsRound_eq <;> push_cast <;> linarith
  show (jsRound ((200 : ℝ) +
      (1 : ℝ) * (1 / (1 + Real.exp (-(0.056 : ℝ)))) * (1 - Real.exp (-(1/2 : ℝ)))) : ℝ) = 200
  rw [h200]
  norm_num

/-- C10, claim as stated is false: `state10` is validator-accepted and takes
the boundary-correction branch (its raw final month, 200, misses the target
201), yet the correction divisor `rawTraffic[timeframe] - currentTraffic` is
exactly zero — in the JavaScript original the intermediate months then become
NaN. -/
theorem c10_counterexample :
    formValid state10 ∧
    (finalGenerated state10 ≠ state10.targetTraffic ∧
      state10.targetTraffic > state10.currentTraffic) ∧
    finalGenerated state10 - state10.currentTraffic = 0 := by
  refine ⟨?_, ⟨?_, by norm_num [state10]⟩, ?_⟩
  · unfold formValid validateCalculatorInputs
    norm_num [state10]
  · rw [state10_final]
    norm_num [state10]
  · rw [state10_final]
    norm_num [state10]

/-- C10 amended: for validator-accepted inputs with whole-number current
traffic and a traffic gap of at least 100 visitors, the raw final month
exceeds the current traffic by at least 1, so the boundary-correction divisor
is nonzero (for smaller gaps the rounded raw curve can collapse onto the
current traffic, making the divisor zero as the counterexample shows). -/
theorem c10_amended (s : CalculatorState) (c : ℤ) (hc : s.currentTraffic = (c : ℝ))
    (hv : formValid s) (hgap : 100 ≤ s.targetTraffic - s.currentTraffic) :
    1 ≤ finalGenerated s - s.currentTraffic := by
  obtain ⟨hcur, htc, -, -, -, -, hN1, -⟩ := formValid_facts s hv
  have hN1R : (1 : ℝ) ≤ ((s.timeframe : ℕ) : ℝ) := by exact_mod_cast hN1
  have hinc : 1/2 ≤ trafficIncrease s s.timeframe := by
    have hramp := rampUpPeriod_bounds s
    unfold trafficIncrease
    split_ifs with b1 b2 b3
    · nlinarith [hN1R, hgap]
    · nlinarith [hN1R, hgap]
    · nlinarith [hN1R, hgap]
    · have hs : (1/2 : ℝ) ≤
          1 / (1 + Real.exp (-growthRate s * (((s.timeframe : ℕ) : ℝ) - (midpoint s : ℝ)))) := by
        have hexple : Real.exp (-growthRate s * (((s.timeframe : ℕ) : ℝ) - (midpoint s : ℝ))) ≤ 1 := by
          rw [Real.exp_le_one_iff]
          have h1 := growthRate_nonneg s
          have h2 := midpoint_le_timeframe s
          nlinarith
        have hexppos := Real.exp_pos (-growthRate s * (((s.timeframe : ℕ) : ℝ) - (midpoint s : ℝ)))
        rw [le_div_iff (by linarith)]
        linarith
      have hr : (1/9 : ℝ) ≤ 1 - Real.exp (-((s.timeframe : ℕ) : ℝ) / rampUpPeriod s) := by
        have hx : (1/8 : ℝ) ≤ ((s.timeframe : ℕ) : ℝ) / rampUpPeriod s := by
          rw [le_div_iff (by linarith [hramp.1])]
          nlinarith [hramp.2]
        have hxpos : (0 : ℝ) ≤ ((s.timeframe : ℕ) : ℝ) / rampUpPeriod s := by
          positivity
        have hb := exp_neg_le_inv_one_add hxpos
        have hb2 : 1 / (1 + ((s.timeframe : ℕ) : ℝ) / rampUpPeriod s) ≤ 1 / (1 + 1/8) := by
          apply one_div_le_one_div_of_le (by norm_num)
          linarith
        have : Real.exp (-(((s.timeframe : ℕ) : ℝ) / rampUpPeriod s)) ≤ 8/9 := by
          calc Real.exp (-(((s.timeframe : ℕ) : ℝ) / rampUpPeriod s)) ≤
              1 / (1 + ((s.timeframe : ℕ) : ℝ) / rampUpPeriod s) := hb
            _ ≤ 1 / (1 + 1/8) := hb2
            _ = 8/9 := by norm_num
        have heq : -(((s.timeframe : ℕ) : ℝ)) / rampUpPeriod s =
            -((((s.timeframe : ℕ) : ℝ)) / rampUpPeriod s) := by ring
        rw [heq]
        linarith
      have hs0 : (0:ℝ) ≤
          1 / (1 + Real.exp (-growthRate s * (((s.timeframe : ℕ) : ℝ) - (midpoint s : ℝ)))) := by
        positivity
      have hr0 : (0:ℝ) ≤ 1 - Real.exp (-((s.timeframe : ℕ) : ℝ) / rampUpPeriod s) := by
        linarith
      calc (1/2 : ℝ) ≤ 100 * (1/2) * (1/9) := by norm_num
        _ ≤ (s.targetTraffic - s.currentTraffic) *
            (1 / (1 + Real.exp (-growthRate s * (((s.timeframe : ℕ) : ℝ) - (midpoint s : ℝ))))) *
            (1 - Real.exp (-((s.timeframe : ℕ) : ℝ) / rampUpPeriod s)) := by
          apply mul_le_mul
          · apply mul_le_mul hgap hs (by norm_num) (by linarith)
          · exact hr
          · norm_num
          · positivity
  unfold finalGenerated
  rw [tempProjected_getD s s.timeframe le_rfl, hc]
  have h1 : (c : ℝ) + 1 - 1/2 ≤ (c : ℝ) + trafficIncrease s s.timeframe := by linarith
  have h2 : (c + 1 : ℤ) ≤ jsRound ((c : ℝ) + trafficIncrease s s.timeframe) := by
    apply le_jsRound_of
    push_cast
    linarith
  have h3 : ((c + 1 : ℤ) : ℝ) ≤ (jsRound ((c : ℝ) + trafficIncrease s s.timeframe) : ℝ) := by
    exact_mod_cast h2
  push_cast at h3
  linarith

/-- Witness for C10's amended claim at `state10w` (gap 200 ≥ 100). -/
theorem c10_amended_witness :
    1 ≤ finalGenerated state10w - state10w.currentTraffic :=
  c10_amended state10w 100 (by norm_num [state10w])
    (by unfold formValid validateCalculatorInputs; norm_num [state10w])
    (by norm_num [state10w])

/-! ### Monotonicity of the projected series (C5) -/

lemma one_div_one_add_mono {a b : ℝ} (h : a ≤ b) (ha : 0 < 1 + a) :
    1 / (1 + b) ≤ 1 / (1 + a) :=
  one_div_le_one_div_of_le ha (by linarith)

lemma state5_growth : growthRate state5 = 0.096 := by
  unfold growthRate domainAuthorityBase competitionGrowthMul
  norm_num [state5]

lemma state5_mid : midpoint state5 = 39 := by
  unfold midpoint
  rw [if_neg (by norm_num [state5]), if_pos (by norm_num [state5])]
  rw [show ((state5.timeframe : ℕ) : ℝ) * 0.65 = 39 by norm_num [state5]]
  apply jsRound_eq <;> norm_num

lemma state5_ramp : rampUpPeriod state5 = 5 := by
  unfold rampUpPeriod rampUpBase
  norm_num [state5]

lemma state5_inc1 : trafficIncrease state5 1 = 2487.5 := by
  unfold trafficIncrease
  rw [if_neg (by norm_num [state5]), if_neg (by norm_num [state5]),
    if_pos (⟨by norm_num [state5], le_rfl⟩ : state5.currentTraffic < 1000 ∧ 1 ≤ 1)]
  norm_num [state5]

lemma state5_temp1 : (tempProjected state5).getD 1 0 = 2988 := by
  rw [tempProjected_getD state5 1 (by norm_num [state5]), state5_inc1]
  have h : jsRound (state5.currentTraffic + 2487.5) = (2988 : ℤ) := by
    apply jsRound_eq <;> norm_num [state5]
  rw [h]
  norm_num

lemma state5_inc2_eq : trafficIncrease state5 2 =
    99500 * (1 / (1 + Real.exp 3.552)) * (1 - Real.exp (-(2/5 : ℝ))) := by
  unfold trafficIncrease
  rw [if_neg (by norm_num [state5]), if_neg (by norm_num [state5]),
    if_neg (by norm_num [state5]), state5_growth, state5_mid, state5_ramp]
  have h1 : -(0.096 : ℝ) * (((2 : ℕ) : ℝ) - ((39 : ℤ) : ℝ)) = 3.552 := by
    push_cast; norm_num
  have h2 : -((2 : ℕ) : ℝ) / (5 : ℝ) = -(2/5 : ℝ) := by push_cast; norm_num
  rw [h1, h2]
  norm_num [state5]

lemma exp_3552_lb : (24.7 : ℝ) ≤ Real.exp 3.552 := by
  have h := exp_pow_le_exp (x := (3.552 : ℝ)) 16 (by norm_num) (by norm_num)
  calc (24.7 : ℝ) ≤ (1 + 3.552 / (16 : ℕ)) ^ (16 : ℕ) := by push_cast; norm_num
    _ ≤ Real.exp 3.552 := h

lemma state5_inc2_bounds : 0 ≤ trafficIncrease state5 2 ∧ trafficIncrease state5 2 ≤ 1394 := by
  rw [state5_inc2_eq]
  have hE : (24.7 : ℝ) ≤ Real.exp 3.552 := exp_3552_lb
  have hEpos : (0 : ℝ) < Real.exp 3.552 := Real.exp_pos _
  have hr1 : Real.exp (-(2/5 : ℝ)) ≤ 1 := exp_neg_le_one (by norm_num)
  have hr2 : (0.64 : ℝ) ≤ Real.exp (-(2/5 : ℝ)) := by
    have h := pow_le_exp_neg (x := (2/5 : ℝ)) 2 (by norm_num) (by norm_num)
    calc (0.64 : ℝ) = (1 - (2/5) / (2 : ℕ)) ^ (2 : ℕ) := by push_cast; norm_num
      _ ≤ Real.exp (-(2/5)) := h
  have hs_ub : 1 / (1 + Real.exp 3.552) ≤ 1 / 25.7 := by
    apply one_div_le_one_div_of_le (by norm_num)
    linarith
  have hs_nonneg : (0:ℝ) ≤ 1 / (1 + Real.exp 3.552) := by positivity
  constructor
  · apply mul_nonneg (by positivity)
    linarith
  · have hstep : 99500 * (1 / (1 + Real.exp 3.552)) * (1 - Real.exp (-(2/5 : ℝ))) ≤
        99500 * (1 / 25.7) * 0.36 := by
      apply mul_le_mul
      · exact mul_le_mul_of_nonneg_left hs_ub (by norm_num)
      · linarith
      · linarith
      · positivity
    have hnum : (99500 : ℝ) * (1 / 25.7) * 0.36 ≤ 1394 := by norm_num
    linarith

lemma state5_temp2_bounds : state5.currentTraffic ≤ (tempProjected state5).getD 2 0 ∧
    (tempProjected state5).getD 2 0 ≤ 1895 := by
  obtain ⟨h0, h1⟩ := state5_inc2_bounds
  rw [tempProjected_getD state5 2 (by norm_num [state5])]
  have hc : state5.currentTraffic = (500 : ℝ) := rfl
  constructor
  · have h := le_jsRound_of (state5.currentTraffic + trafficIncrease state5 2) 500
      (by rw [hc]; push_cast; linarith)
    have h2 : ((500 : ℤ) : ℝ) ≤
        (jsRound (state5.currentTraffic + trafficIncrease state5 2) : ℝ) := by
      exact_mod_cast h
    rw [hc] at h2 ⊢
    push_cast at h2
    linarith
  · have h := jsRound_le (state5.currentTraffic + trafficIncrease state5 2)
    rw [hc] at h ⊢
    linarith

lemma state5_inc60_eq : trafficIncrease state5 60 =
    99500 * (1 / (1 + Real.exp (-(2.016 : ℝ)))) * (1 - Real.exp (-(12 : ℝ))) := by
  unfold trafficIncrease
  rw [if_neg (by norm_num [state5]), if_neg (by norm_num [state5]),
    if_neg (by norm_num [state5]), state5_growth, state5_mid, state5_ramp]
  have h1 : -(0.096 : ℝ) * (((60 : ℕ) : ℝ) - ((39 : ℤ) : ℝ)) = -(2.016 : ℝ) := by
    push_cast; norm_num
  have h2 : -((60 : ℕ) : ℝ) / (5 : ℝ) = -(12 : ℝ) := by push_cast; norm_num
  rw [h1, h2]
  norm_num [state5]

lemma state5_inc60_bounds :
    (68884 : ℝ) ≤ trafficIncrease state5 60 ∧ trafficIncrease state5 60 ≤ 99500 := by
  rw [state5_inc60_eq]
  have hE1 : Real.exp (-(2.016 : ℝ)) ≤ 1/3 := by
    have h := exp_neg_le_inv_one_add (x := (2.016 : ℝ)) (by norm_num)
    calc Real.exp (-(2.016 : ℝ)) ≤ 1 / (1 + 2.016) := h
      _ ≤ 1/3 := by norm_num
  have hE1p : (0 : ℝ) < Real.exp (-(2.016 : ℝ)) := Real.exp_pos _
  have hE2 : Real.exp (-(12 : ℝ)) ≤ 1/13 := by
    have h := exp_neg_le_inv_one_add (x := (12 : ℝ)) (by norm_num)
    calc Real.exp (-(12 : ℝ)) ≤ 1 / (1 + 12) := h
      _ = 1/13 := by norm_num
  have hE2p : (0 : ℝ) < Real.exp (-(12 : ℝ)) := Real.exp_pos _
  have hs_lb : (3/4 : ℝ) ≤ 1 / (1 + Real.exp (-(2.016 : ℝ))) := by
    rw [le_div_iff (by linarith)]
    linarith
  have hs_ub : 1 / (1 + Real.exp (-(2.016 : ℝ))) ≤ 1 := by
    rw [div_le_one (by linarith)]
    linarith
  constructor
  · have hstep : (99500 : ℝ) * (3/4) * (12/13) ≤
        99500 * (1 / (1 + Real.exp (-(2.016 : ℝ)))) * (1 - Real.exp (-(12 : ℝ))) := by
      apply mul_le_mul
      · exact mul_le_mul_of_nonneg_left hs_lb (by norm_num)
      · linarith
      · norm_num
      · positivity
    have hnum : (68884 : ℝ) ≤ 99500 * (3/4) * (12/13) := by norm_num
    linarith
  · have hstep : 99500 * (1 / (1 + Real.exp (-(2.016 : ℝ)))) * (1 - Real.exp (-(12 : ℝ))) ≤
        99500 * 1 * 1 := by
      apply mul_le_mul
      · exact mul_le_mul_of_nonneg_left hs_ub (by norm_num)
      · linarith
      · linarith
      · norm_num
    have hnum : (99500 : ℝ) * 1 * 1 = 99500 := by norm_num
    linarith

lemma state5_final_bounds :
    (69383.5 : ℝ) ≤ finalGenerated state5 ∧ finalGenerated state5 ≤ 100000.5 := by
  obtain ⟨hl, hu⟩ := state5_inc60_bounds
  unfold finalGenerated
  rw [show state5.timeframe = 60 by norm_num [state5],
    tempProjected_getD state5 60 (by norm_num [state5])]
  have hlj := lt_jsRound (state5.currentTraffic + trafficIncrease state5 60)
  have huj := jsRound_le (state5.currentTraffic + trafficIncrease state5 60)
  have hc : state5.currentTraffic = (500 : ℝ) := rfl
  rw [hc] at hlj huj ⊢
  constructor <;> linarith

lemma state5_phi_bounds :
    (0.9 : ℝ) ≤ correctionFactor state5 ∧ correctionFactor state5 ≤ 1.45 := by
  obtain ⟨hl, hu⟩ := state5_final_bounds
  unfold correctionFactor
  have hc : state5.currentTraffic = (500 : ℝ) := rfl
  have ht : state5.targetTraffic = (100000 : ℝ) := rfl
  rw [hc, ht]
  have hd1 : (68883.5 : ℝ) ≤ finalGenerated state5 - 500 := by linarith
  have hd2 : finalGenerated state5 - 500 ≤ 99500.5 := by linarith
  have hdpos : (0 : ℝ) < finalGenerated state5 - 500 := by linarith
  constructor
  · rw [le_div_iff hdpos]
    linarith
  · rw [div_le_iff hdpos]
    linarith

/-- C5, claim as stated is false: on the validator-accepted `state5` (a
500-visitor site targeting 100000 over 60 months, high competition) the
minimal-growth override makes month 1 overshoot month 2: the projected
series decreases from month 1 to month 2. -/
theorem c5_counterexample :
    formValid state5 ∧ state5.currentTraffic < state5.targetTraffic ∧
    ¬((generateTrafficProjection state5).getD 1 0 ≤
      (generateTrafficProjection state5).getD 2 0) := by
  have hc : state5.currentTraffic = (500 : ℝ) := rfl
  refine ⟨?_, by norm_num [state5], ?_⟩
  · unfold formValid validateCalculatorInputs
    norm_num [state5]
  by_cases hb : finalGenerated state5 ≠ state5.targetTraffic ∧
      state5.targetTraffic > state5.currentTraffic
  · -- correction branch
    obtain ⟨hphi1, hphi2⟩ := state5_phi_bounds
    obtain ⟨ht2l, ht2u⟩ := state5_temp2_bounds
    have h1 : (generateTrafficProjection state5).getD 1 0 =
        (jsRound (state5.currentTraffic +
          ((tempProjected state5).getD 1 0 - state5.currentTraffic) *
            correctionFactor state5) : ℝ) := by
      rw [generateTrafficProjection_getD_ne state5 1 (by norm_num [state5])]
      unfold projectedBeforeEnsure
      rw [if_pos hb, getD_range_map _ _ _ _ (by norm_num [state5]),
        if_neg (by norm_num), if_neg (by norm_num [state5])]
    have h2 : (generateTrafficProjection state5).getD 2 0 =
        (jsRound (state5.currentTraffic +
          ((tempProjected state5).getD 2 0 - state5.currentTraffic) *
            correctionFactor state5) : ℝ) := by
      rw [generateTrafficProjection_getD_ne state5 2 (by norm_num [state5])]
      unfold projectedBeforeEnsure
      rw [if_pos hb, getD_range_map _ _ _ _ (by norm_num [state5]),
        if_neg (by norm_num), if_neg (by norm_num [state5])]
    rw [h1, h2, state5_temp1, hc]
    intro hcon
    have e1 := lt_jsRound ((500 : ℝ) + (2988 - 500) * correctionFactor state5)
    have e2 := jsRound_le ((500 : ℝ) +
      ((tempProjected state5).getD 2 0 - 500) * correctionFactor state5)
    rw [hc] at ht2l
    have horig2 : (0 : ℝ) ≤ (tempProjected state5).getD 2 0 - 500 := by linarith
    have hprod : ((tempProjected state5).getD 2 0 - 500) * correctionFactor state5 ≤
        1395 * 1.45 := by
      apply mul_le_mul (by linarith) hphi2 (by linarith) (by norm_num)
    have hprod1 : (2488 : ℝ) * 0.9 ≤ (2988 - 500) * correctionFactor state5 := by
      nlinarith
    generalize hja : (jsRound ((500 : ℝ) + (2988 - 500) * correctionFactor state5) : ℝ) = ja
      at e1 hcon
    generalize hjb : (jsRound ((500 : ℝ) +
      ((tempProjected state5).getD 2 0 - 500) * correctionFactor state5) : ℝ) = jb at e2 hcon
    linarith
  · -- no correction: the series is the raw one
    have htgt : state5.targetTraffic > state5.currentTraffic := by norm_num [state5]
    have h1 : (generateTrafficProjection state5).getD 1 0 = (tempProjected state5).getD 1 0 := by
      rw [generateTrafficProjection_getD_ne state5 1 (by norm_num [state5])]
      unfold projectedBeforeEnsure
      rw [if_neg hb]
    have h2 : (generateTrafficProjection state5).getD 2 0 = (tempProjected state5).getD 2 0 := by
      rw [generateTrafficProjection_getD_ne state5 2 (by norm_num [state5])]
      unfold projectedBeforeEnsure
      rw [if_neg hb]
    rw [h1, h2, state5_temp1]
    obtain ⟨-, ht2u⟩ := state5_temp2_bounds
    linarith

/-- For sites with at least 1000 visitors no minimal-growth override applies:
the increase is always the S-curve-times-ramp-up product. -/
lemma trafficIncrease_exp_form (s : CalculatorState) (h1000 : 1000 ≤ s.currentTraffic)
    (i : ℕ) : trafficIncrease s i =
      (s.targetTraffic - s.currentTraffic) *
        (1 / (1 + Real.exp (-growthRate s * ((i : ℝ) - ((midpoint s : ℤ) : ℝ))))) *
        (1 - Real.exp (-(i : ℝ) / rampUpPeriod s)) := by
  unfold trafficIncrease
  rw [if_neg (fun hcon => by linarith [hcon.1]), if_neg (fun hcon => by linarith [hcon.1]),
    if_neg (fun hcon => by linarith [hcon.1])]

/-- The raw monthly increases are monotone for sites with at least 1000
visitors (both the S-curve factor and the ramp-up factor increase month over
month). -/
lemma trafficIncrease_mono (s : CalculatorState) (h1000 : 1000 ≤ s.currentTraffic)
    (htc : s.currentTraffic ≤ s.targetTraffic) {i j : ℕ} (hij : i ≤ j) :
    trafficIncrease s i ≤ trafficIncrease s j := by
  rw [trafficIncrease_exp_form s h1000 i, trafficIncrease_exp_form s h1000 j]
  have hdiff : 0 ≤ s.targetTraffic - s.currentTraffic := by linarith
  have hg := growthRate_nonneg s
  have hr1 := (rampUpPeriod_bounds s).1
  have hijR : (i : ℝ) ≤ (j : ℝ) := by exact_mod_cast hij
  have hEj := Real.exp_pos (-growthRate s * ((j : ℝ) - ((midpoint s : ℤ) : ℝ)))
  have hsf : 1 / (1 + Real.exp (-growthRate s * ((i : ℝ) - ((midpoint s : ℤ) : ℝ)))) ≤
      1 / (1 + Real.exp (-growthRate s * ((j : ℝ) - ((midpoint s : ℤ) : ℝ)))) := by
    apply one_div_le_one_div_of_le (by linarith)
    have h1 : growthRate s * ((i : ℝ) - ((midpoint s : ℤ) : ℝ)) ≤
        growthRate s * ((j : ℝ) - ((midpoint s : ℤ) : ℝ)) :=
      mul_le_mul_of_nonneg_left (by linarith) hg
    have h2 : Real.exp (-growthRate s * ((j : ℝ) - ((midpoint s : ℤ) : ℝ))) ≤
        Real.exp (-growthRate s * ((i : ℝ) - ((midpoint s : ℤ) : ℝ))) := by
      apply Real.exp_le_exp.mpr
      linarith
    linarith
  have hrf : 1 - Real.exp (-(i : ℝ) / rampUpPeriod s) ≤
      1 - Real.exp (-(j : ℝ) / rampUpPeriod s) := by
    have h1 : (-(j : ℝ)) / rampUpPeriod s ≤ (-(i : ℝ)) / rampUpPeriod s := by
      have hrpos : (0 : ℝ) < rampUpPeriod s := by linarith
      rw [div_le_div_iff hrpos hrpos]
      nlinarith
    have h2 : Real.exp (-(j : ℝ) / rampUpPeriod s) ≤
        Real.exp (-(i : ℝ) / rampUpPeriod s) := Real.exp_le_exp.mpr h1
    linarith
  have hri0 : 0 ≤ 1 - Real.exp (-(i : ℝ) / rampUpPeriod s) := by
    have heq : -(i : ℝ) / rampUpPeriod s = -((i : ℝ) / rampUpPeriod s) := by ring
    rw [heq, sub_nonneg]
    apply exp_neg_le_one
    exact div_nonneg (Nat.cast_nonneg i) (by linarith)
  have hsj0 : (0 : ℝ) ≤
      1 / (1 + Real.exp (-growthRate s * ((j : ℝ) - ((midpoint s : ℤ) : ℝ)))) := by
    positivity
  apply mul_le_mul (mul_le_mul_of_nonneg_left hsf hdiff) hrf hri0
    (mul_nonneg hdiff hsj0)

/-- The rounded raw series is monotone for at-least-1000-visitor sites. -/
lemma tempProjected_mono (s : CalculatorState) (h1000 : 1000 ≤ s.currentTraffic)
    (htc : s.currentTraffic ≤ s.targetTraffic) {i j : ℕ} (hij : i ≤ j)
    (hj : j ≤ s.timeframe) :
    (tempProjected s).getD i 0 ≤ (tempProjected s).getD j 0 := by
  rw [tempProjected_getD s i (by omega), tempProjected_getD s j hj]
  have h := jsRound_mono (x := s.currentTraffic + trafficIncrease s i)
    (y := s.currentTraffic + trafficIncrease s j)
    (by linarith [trafficIncrease_mono s h1000 htc hij])
  exact_mod_cast h

/-- Month 0 of the raw series is the current traffic whenever the latter is a
whole number. -/
lemma tempProjected_zero (s : CalculatorState) (c : ℤ) (hc : s.currentTraffic = (c : ℝ)) :
    (tempProjected s).getD 0 0 = s.currentTraffic := by
  rw [tempProjected_getD s 0 (by omega), trafficIncrease_zero, add_zero, hc, jsRound_intCast]

/-- C5 amended: for validator-accepted inputs with whole-number current and
target traffic, current traffic at least 1000 (the minimal-growth override
never fires) and a nonzero correction divisor, the projected traffic series
is non-decreasing month over month across the whole timeframe.  For
lower-traffic sites the override boundary can break monotonicity, as the
counterexample shows. -/
theorem c5_amended (s : CalculatorState) (c t : ℤ) (hc : s.currentTraffic = (c : ℝ))
    (ht : s.targetTraffic = (t : ℝ)) (hv : formValid s) (h1000 : 1000 ≤ s.currentTraffic)
    (hdiv : finalGenerated s ≠ s.currentTraffic) (i : ℕ) (hi : i + 1 ≤ s.timeframe) :
    (generateTrafficProjection s).getD i 0 ≤
      (generateTrafficProjection s).getD (i + 1) 0 := by
  obtain ⟨-, htc, -, -, -, -, hN1, -⟩ := formValid_facts s hv
  have htc' : s.currentTraffic ≤ s.targetTraffic := le_of_lt htc
  have htemp0 : (tempProjected s).getD 0 0 = s.currentTraffic := tempProjected_zero s c hc
  have htempge : ∀ k, k ≤ s.timeframe → s.currentTraffic ≤ (tempProjected s).getD k 0 := by
    intro k hk
    rw [← htemp0]
    exact tempProjected_mono s h1000 htc' (Nat.zero_le k) hk
  have hfin : finalGenerated s = (tempProjected s).getD s.timeframe 0 := rfl
  have hfinle : s.currentTraffic ≤ finalGenerated s := by
    rw [hfin]
    exact htempge s.timeframe le_rfl
  have hfingt : s.currentTraffic < finalGenerated s := by
    rcases lt_or_eq_of_le hfinle with h | h
    · exact h
    · exact absurd h.symm hdiv
  by_cases hb : finalGenerated s ≠ s.targetTraffic ∧ s.targetTraffic > s.currentTraffic
  · -- correction branch
    have hφ : 0 ≤ correctionFactor s := by
      unfold correctionFactor
      apply div_nonneg (by linarith) (by linarith)
    have hinterior : ∀ k, 1 ≤ k → k < s.timeframe →
        (generateTrafficProjection s).getD k 0 =
          (jsRound (s.currentTraffic +
            ((tempProjected s).getD k 0 - s.currentTraffic) * correctionFactor s) : ℝ) := by
      intro k hk1 hk2
      rw [generateTrafficProjection_getD_ne s k (by omega)]
      unfold projectedBeforeEnsure
      rw [if_pos hb, getD_range_map _ _ _ _ (by omega), if_neg (by omega),
        if_neg (by omega)]
    have hzero : (generateTrafficProjection s).getD 0 0 = s.currentTraffic := by
      rw [generateTrafficProjection_getD_ne s 0 (by omega)]
      unfold projectedBeforeEnsure
      rw [if_pos hb, getD_range_map _ _ _ _ (by omega), if_pos rfl]
    rcases Nat.eq_zero_or_pos i with hi0 | hi1
    · subst hi0
      rw [hzero]
      rcases eq_or_lt_of_le hi with hN | hN
      · rw [show (0 + 1 : ℕ) = s.timeframe from hN, generateTrafficProjection_final]
        linarith
      · rw [hinterior 1 le_rfl (by omega)]
        have hx : 0 ≤ ((tempProjected s).getD 1 0 - s.currentTraffic) * correctionFactor s :=
          mul_nonneg (by linarith [htempge 1 (by omega)]) hφ
        rw [hc]
        have h := le_jsRound_of ((c : ℝ) +
          ((tempProjected s).getD 1 0 - s.currentTraffic) * correctionFactor s) c
          (by rw [hc] at hx ⊢; linarith)
        have h2 : ((c : ℤ) : ℝ) ≤ (jsRound ((c : ℝ) +
            ((tempProjected s).getD 1 0 - s.currentTraffic) * correctionFactor s) : ℝ) := by
          exact_mod_cast h
        rw [hc] at h2
        convert h2 using 3 <;> rw [hc]
    · rcases eq_or_lt_of_le hi with hN | hN
      · -- the pair (timeframe - 1, timeframe)
        rw [hN, generateTrafficProjection_final,
          hinterior i hi1 (by omega)]
        have hprod : ((tempProjected s).getD i 0 - s.currentTraffic) * correctionFactor s ≤
            (finalGenerated s - s.currentTraffic) * correctionFactor s := by
          apply mul_le_mul_of_nonneg_right _ hφ
          rw [hfin]
          exact sub_le_sub_right (tempProjected_mono s h1000 htc' (by omega) le_rfl) _
        have hcancel : (finalGenerated s - s.currentTraffic) * correctionFactor s =
            s.targetTraffic - s.currentTraffic := by
          unfold correctionFactor
          rw [mul_comm, div_mul_cancel₀]
          linarith
        have hle : s.currentTraffic +
            ((tempProjected s).getD i 0 - s.currentTraffic) * correctionFactor s ≤
            s.targetTraffic := by
          rw [hcancel] at hprod
          linarith
        have h := jsRound_le_of (s.currentTraffic +
          ((tempProjected s).getD i 0 - s.currentTraffic) * correctionFactor s) t
          (by rw [ht] at hle; push_cast; linarith)
        have h2 : (jsRound (s.currentTraffic +
            ((tempProjected s).getD i 0 - s.currentTraffic) * correctionFactor s) : ℝ) ≤
            ((t : ℤ) : ℝ) := by exact_mod_cast h
        rw [ht]
        exact h2
      · -- both interior
        rw [hinterior i hi1 (by omega), hinterior (i + 1) (by omega) hN]
        have hmono : (tempProjected s).getD i 0 ≤ (tempProjected s).getD (i + 1) 0 :=
          tempProjected_mono s h1000 htc' (by omega) (by omega)
        have h := jsRound_mono (x := s.currentTraffic +
            ((tempProjected s).getD i 0 - s.currentTraffic) * correctionFactor s)
          (y := s.currentTraffic +
            ((tempProjected s).getD (i + 1) 0 - s.currentTraffic) * correctionFactor s)
          (by nlinarith)
        exact_mod_cast h
  · -- no correction: the series is the raw one, already monotone
    have hfin_eq : finalGenerated s = s.targetTraffic := by
      by_contra hne
      exact hb ⟨hne, htc⟩
    have hgetD : ∀ k, k ≤ s.timeframe →
        (generateTrafficProjection s).getD k 0 = (tempProjected s).getD k 0 := by
      intro k hk
      rcases eq_or_lt_of_le hk with hkN | hkN
      · rw [hkN, generateTrafficProjection_final, ← hfin_eq, hfin]
      · rw [generateTrafficProjection_getD_ne s k (by omega)]
        unfold projectedBeforeEnsure
        rw [if_neg hb]
    rw [hgetD i (by omega), hgetD (i + 1) hi]
    exact tempProjected_mono s h1000 htc' (by omega) hi

lemma state5w_growth : growthRate state5w = 0.2 := by
  unfold growthRate domainAuthorityBase competitionGrowthMul
  norm_num [state5w]

lemma state5w_mid : midpoint state5w = 1 := by
  unfold midpoint
  rw [if_neg (by norm_num [state5w]), if_pos (by norm_num [state5w])]
  rw [show ((state5w.timeframe : ℕ) : ℝ) * 0.65 = 1.3 by norm_num [state5w]]
  apply jsRound_eq <;> norm_num

lemma state5w_ramp : rampUpPeriod state5w = 3 := by
  unfold rampUpPeriod rampUpBase
  norm_num [state5w]

lemma state5w_inc2_eq : trafficIncrease state5w 2 =
    1000 * (1 / (1 + Real.exp (-(0.2 : ℝ)))) * (1 - Real.exp (-(2/3 : ℝ))) := by
  unfold trafficIncrease
  rw [if_neg (by norm_num [state5w]), if_neg (by norm_num [state5w]),
    if_neg (by norm_num [state5w]), state5w_growth, state5w_mid, state5w_ramp]
  have h1 : -(0.2 : ℝ) * (((2 : ℕ) : ℝ) - ((1 : ℤ) : ℝ)) = -(0.2 : ℝ) := by
    push_cast; norm_num
  have h2 : -((2 : ℕ) : ℝ) / (3 : ℝ) = -(2/3 : ℝ) := by push_cast; norm_num
  rw [h1, h2]
  norm_num [state5w]

lemma state5w_final_ge : (1001 : ℝ) ≤ finalGenerated state5w := by
  have hE1 : Real.exp (-(0.2 : ℝ)) ≤ 1 := exp_neg_le_one (by norm_num)
  have hE1p : (0 : ℝ) < Real.exp (-(0.2 : ℝ)) := Real.exp_pos _
  have hE2 : Real.exp (-(2/3 : ℝ)) ≤ 3/5 := by
    have h := exp_neg_le_inv_one_add (x := (2/3 : ℝ)) (by norm_num)
    calc Real.exp (-(2/3 : ℝ)) ≤ 1 / (1 + 2/3) := h
      _ = 3/5 := by norm_num
  have hs_lb : (1/2 : ℝ) ≤ 1 / (1 + Real.exp (-(0.2 : ℝ))) := by
    rw [le_div_iff (by linarith)]
    linarith
  have hinc : (200 : ℝ) ≤ trafficIncrease state5w 2 := by
    rw [state5w_inc2_eq]
    have hstep : (1000 : ℝ) * (1/2) * (2/5) ≤
        1000 * (1 / (1 + Real.exp (-(0.2 : ℝ)))) * (1 - Real.exp (-(2/3 : ℝ))) := by
      apply mul_le_mul
      · exact mul_le_mul_of_nonneg_left hs_lb (by norm_num)
      · linarith
      · norm_num
      · positivity
    linarith
  have hfin : finalGenerated state5w =
      (jsRound (state5w.currentTraffic + trafficIncrease state5w 2) : ℝ) := by
    unfold finalGenerated
    rw [show state5w.timeframe = 2 from rfl]
    exact tempProjected_getD state5w 2 (by norm_num [state5w])
  rw [hfin]
  have hc : state5w.currentTraffic = (1000 : ℝ) := rfl
  have h := le_jsRound_of (state5w.currentTraffic + trafficIncrease state5w 2) 1001
    (by rw [hc]; push_cast; linarith)
  have h2 : ((1001 : ℤ) : ℝ) ≤
      (jsRound (state5w.currentTraffic + trafficIncrease state5w 2) : ℝ) := by
    exact_mod_cast h
  push_cast at h2
  linarith

lemma state5w_div_ne : finalGenerated state5w ≠ state5w.currentTraffic := by
  have h := state5w_final_ge
  have hc : state5w.currentTraffic = (1000 : ℝ) := rfl
  rw [hc]
  intro hcon
  rw [hcon] at h
  linarith

/-- Witness for C5's amended claim: at `state5w` (1000 to 2000 visitors over
two months, medium competition) every hypothesis holds concretely and the
first projection step is non-decreasing. -/
theorem c5_amended_witness :
    (generateTrafficProjection state5w).getD 0 0 ≤
      (generateTrafficProjection state5w).getD 1 0 :=
  c5_amended state5w 1000 2000 (by norm_num [state5w]) (by norm_num [state5w])
    (by unfold formValid validateCalculatorInputs; norm_num [state5w])
    (by norm_num [state5w]) state5w_div_ne 0 (by norm_num [state5w])

/-! ### The known 500 → 1500 fixture (C9) -/

lemma state9_growth : growthRate state9 = 0.12 := by
  unfold growthRate domainAuthorityBase competitionGrowthMul
  norm_num [state9]

lemma state9_mid : midpoint state9 = 8 := by
  unfold midpoint
  rw [if_neg (by norm_num [state9]), if_pos (by norm_num [state9])]
  rw [show ((state9.timeframe : ℕ) : ℝ) * 0.65 = 7.8 by norm_num [state9]]
  apply jsRound_eq <;> norm_num

lemma state9_ramp : rampUpPeriod state9 = 4 := by
  unfold rampUpPeriod rampUpBase
  norm_num [state9]

lemma state9_inc1 : trafficIncrease state9 1 = 25 := by
  unfold trafficIncrease
  rw [if_neg (by norm_num [state9]), if_neg (by norm_num [state9]),
    if_pos (⟨by norm_num [state9], le_rfl⟩ : state9.currentTraffic < 1000 ∧ 1 ≤ 1)]
  norm_num [state9]

lemma state9_inc_eq (k : ℕ) (hk : 2 ≤ k) : trafficIncrease state9 k =
    1000 * (1 / (1 + Real.exp (-(0.12 : ℝ) * ((k : ℝ) - ((8 : ℤ) : ℝ))))) *
      (1 - Real.exp (-(k : ℝ) / (4 : ℝ))) := by
  unfold trafficIncrease
  rw [if_neg (by norm_num [state9]), if_neg (by norm_num [state9]),
    if_neg (fun hcon => absurd hcon.2 (by omega)), state9_growth, state9_mid, state9_ramp]
  norm_num [state9]

/-- `1 + e^a ≥ 2 + a`, so the logistic factor is at most `1/(2+a)`. -/
lemma s_factor_ub (a : ℝ) (ha : 0 < 2 + a) : 1 / (1 + Real.exp a) ≤ 1 / (2 + a) := by
  apply one_div_le_one_div_of_le ha
  have := Real.add_one_le_exp a
  linarith

lemma state9_inc_ub (k : ℕ) (hk : 2 ≤ k) (hk12 : k ≤ 12) :
    trafficIncrease state9 k ≤ 1000 / (2 - 0.12 * ((k : ℝ) - 8)) := by
  rw [state9_inc_eq k hk]
  have hk12R : (k : ℝ) ≤ 12 := by exact_mod_cast hk12
  have ha : (0 : ℝ) < 2 + (-(0.12 : ℝ) * ((k : ℝ) - ((8 : ℤ) : ℝ))) := by
    push_cast
    linarith
  have hs := s_factor_ub (-(0.12 : ℝ) * ((k : ℝ) - ((8 : ℤ) : ℝ))) ha
  have hr_ub : 1 - Real.exp (-(k : ℝ) / (4 : ℝ)) ≤ 1 := by
    have := Real.exp_pos (-(k : ℝ) / (4 : ℝ))
    linarith
  have hr0 : 0 ≤ 1 - Real.exp (-(k : ℝ) / (4 : ℝ)) := by
    have heq : -(k : ℝ) / (4 : ℝ) = -((k : ℝ) / 4) := by ring
    rw [heq, sub_nonneg]
    exact exp_neg_le_one (by positivity)
  have hstep : 1000 * (1 / (1 + Real.exp (-(0.12 : ℝ) * ((k : ℝ) - ((8 : ℤ) : ℝ))))) *
      (1 - Real.exp (-(k : ℝ) / (4 : ℝ))) ≤
      1000 * (1 / (2 + (-(0.12 : ℝ) * ((k : ℝ) - ((8 : ℤ) : ℝ))))) * 1 :=
    mul_le_mul (mul_le_mul_of_nonneg_left hs (by norm_num)) hr_ub hr0
      (mul_nonneg (by norm_num) (le_of_lt (one_div_pos.mpr ha)))
  refine le_trans hstep ?_
  rw [mul_one]
  have he : (2 : ℝ) + (-(0.12 : ℝ) * ((k : ℝ) - ((8 : ℤ) : ℝ))) =
      2 - 0.12 * ((k : ℝ) - 8) := by
    push_cast
    ring
  rw [he, mul_one_div]

lemma state9_inc12_lb : (541 : ℝ) ≤ trafficIncrease state9 12 := by
  rw [state9_inc_eq 12 (by norm_num)]
  have ha : -(0.12 : ℝ) * (((12 : ℕ) : ℝ) - ((8 : ℤ) : ℝ)) = -(0.48 : ℝ) := by
    push_cast
    norm_num
  have hb : -((12 : ℕ) : ℝ) / (4 : ℝ) = -(3 : ℝ) := by
    push_cast
    norm_num
  rw [ha, hb]
  have hE1 : Real.exp (-(0.48 : ℝ)) ≤ 0.6504 := by
    calc Real.exp (-(0.48 : ℝ)) ≤ ((1 + (0.48 : ℝ) / ((2 : ℕ) : ℝ)) ^ (2 : ℕ))⁻¹ :=
          exp_neg_le_inv 2 (by norm_num) (by norm_num)
      _ ≤ 0.6504 := by push_cast; norm_num
  have hE2 : Real.exp (-(3 : ℝ)) ≤ 0.1067 := by
    calc Real.exp (-(3 : ℝ)) ≤ ((1 + (3 : ℝ) / ((4 : ℕ) : ℝ)) ^ (4 : ℕ))⁻¹ :=
          exp_neg_le_inv 4 (by norm_num) (by norm_num)
      _ ≤ 0.1067 := by push_cast; norm_num
  have hs : (0.6059 : ℝ) ≤ 1 / (1 + Real.exp (-(0.48 : ℝ))) := by
    rw [le_div_iff (by positivity)]
    linarith
  have hr : (0.8933 : ℝ) ≤ 1 - Real.exp (-(3 : ℝ)) := by linarith
  calc (541 : ℝ) ≤ 1000 * 0.6059 * 0.8933 := by norm_num
    _ ≤ 1000 * (1 / (1 + Real.exp (-(0.48 : ℝ)))) * (1 - Real.exp (-(3 : ℝ))) := by
        apply mul_le_mul (mul_le_mul_of_nonneg_left hs (by norm_num)) hr (by norm_num)
          (by positivity)

lemma state9_final_lb : (1041 : ℝ) ≤ finalGenerated state9 := by
  have hfin : finalGenerated state9 =
      (jsRound (state9.currentTraffic + trafficIncrease state9 12) : ℝ) := by
    unfold finalGenerated
    rw [show state9.timeframe = 12 from rfl]
    exact tempProjected_getD state9 12 (by norm_num [state9])
  rw [hfin]
  have hc : state9.currentTraffic = (500 : ℝ) := rfl
  have h := le_jsRound_of (state9.currentTraffic + trafficIncrease state9 12) 1041
    (by rw [hc]; push_cast; linarith [state9_inc12_lb])
  have h2 : ((1041 : ℤ) : ℝ) ≤
      (jsRound (state9.currentTraffic + trafficIncrease state9 12) : ℝ) := by
    exact_mod_cast h
  push_cast at h2
  linarith

lemma state9_final_ub : finalGenerated state9 ≤ 1159 := by
  have hi12 : trafficIncrease state9 12 ≤ 658 :=
    le_trans (state9_inc_ub 12 (by norm_num) (by norm_num)) (by push_cast; norm_num)
  have hfin : finalGenerated state9 =
      (jsRound (state9.currentTraffic + trafficIncrease state9 12) : ℝ) := by
    unfold finalGenerated
    rw [show state9.timeframe = 12 from rfl]
    exact tempProjected_getD state9 12 (by norm_num [state9])
  rw [hfin]
  have hc : state9.currentTraffic = (500 : ℝ) := rfl
  have h := jsRound_le (state9.currentTraffic + trafficIncrease state9 12)
  rw [hc] at h ⊢
  linarith

lemma state9_branch : finalGenerated state9 ≠ state9.targetTraffic ∧
    state9.targetTraffic > state9.currentTraffic := by
  constructor
  · have h := state9_final_ub
    rw [show state9.targetTraffic = (1500 : ℝ) from rfl]
    intro hcon
    rw [hcon] at h
    linarith
  · rw [show state9.targetTraffic = (1500 : ℝ) from rfl,
      show state9.currentTraffic = (500 : ℝ) from rfl]
    norm_num

lemma state9_phi : 0 ≤ correctionFactor state9 ∧ correctionFactor state9 ≤ 1000 / 541 := by
  have hlb := state9_final_lb
  unfold correctionFactor
  rw [show state9.currentTraffic = (500 : ℝ) from rfl,
    show state9.targetTraffic = (1500 : ℝ) from rfl]
  constructor
  · apply div_nonneg (by norm_num)
    linarith
  · rw [div_le_div_iff (by linarith) (by norm_num)]
    linarith

/-- Generic upper bound on a corrected interior month of the `state9`
projection, driven by an upper bound on the raw monthly increase. -/
lemma state9_t_ub (k : ℕ) (hk1 : 1 ≤ k) (hk2 : k ≤ 11) (b : ℝ)
    (hb : trafficIncrease state9 k ≤ b) (hb0 : 0 ≤ b) :
    (generateTrafficProjection state9).getD k 0 ≤
      500 + (b + 1/2) * (1000 / 541) + 1/2 := by
  have hT : state9.timeframe = 12 := rfl
  have hget : (generateTrafficProjection state9).getD k 0 =
      (jsRound (state9.currentTraffic +
        ((tempProjected state9).getD k 0 - state9.currentTraffic) *
          correctionFactor state9) : ℝ) := by
    rw [generateTrafficProjection_getD_ne state9 k (by omega)]
    unfold projectedBeforeEnsure
    rw [if_pos state9_branch, getD_range_map _ _ _ _ (by omega), if_neg (by omega),
      if_neg (by omega)]
  have htk := tempProjected_getD state9 k (by omega)
  have hinc0 : 0 ≤ trafficIncrease state9 k :=
    trafficIncrease_nonneg state9
      (by rw [show state9.currentTraffic = (500 : ℝ) from rfl,
            show state9.targetTraffic = (1500 : ℝ) from rfl]
          norm_num) k
  have hc : state9.currentTraffic = (500 : ℝ) := rfl
  have hjle := jsRound_le (state9.currentTraffic + trafficIncrease state9 k)
  rw [hc] at hjle
  obtain ⟨hphi0, hphiub⟩ := state9_phi
  have htemp_ub : (tempProjected state9).getD k 0 - state9.currentTraffic ≤ b + 1/2 := by
    rw [htk, hc]
    linarith
  have hprod : ((tempProjected state9).getD k 0 - state9.currentTraffic) *
      correctionFactor state9 ≤ (b + 1/2) * (1000 / 541) :=
    mul_le_mul htemp_ub hphiub hphi0 (by linarith)
  rw [hget]
  have h2 := jsRound_le (state9.currentTraffic +
    ((tempProjected state9).getD k 0 - state9.currentTraffic) * correctionFactor state9)
  rw [hc] at h2 hprod ⊢
  linarith

lemma state9_rev (t : ℝ) :
    monthlyRevenue state9 t - baselineMonthlyRevenue state9 = 1.2 * t - 600 := by
  unfold monthlyRevenue baselineMonthlyRevenue
  rw [show state9.conversionRate = (1.5 : ℝ) from rfl,
    show state9.averageOrderValue = (80 : ℝ) from rfl,
    show state9.currentTraffic = (500 : ℝ) from rfl]
  ring

lemma state9_cost (j : ℕ) : cumulativeCost state9 j = 1000 * (j : ℝ) := by
  unfold cumulativeCost
  rw [show state9.monthlySEOCost = (1000 : ℝ) from rfl]

/-- On the fixture, cumulative revenue increase never catches cumulative cost
at any month of the timeframe. -/
lemma state9_never : ∀ j, 1 ≤ j → j ≤ state9.timeframe →
    cumulativeRevenue state9 (generateTrafficProjection state9) j <
      cumulativeCost state9 j := by
  have hi2 : trafficIncrease state9 2 ≤ 368 :=
    le_trans (state9_inc_ub 2 (by norm_num) (by norm_num)) (by push_cast; norm_num)
  have hi3 : trafficIncrease state9 3 ≤ 385 :=
    le_trans (state9_inc_ub 3 (by norm_num) (by norm_num)) (by push_cast; norm_num)
  have hi4 : trafficIncrease state9 4 ≤ 404 :=
    le_trans (state9_inc_ub 4 (by norm_num) (by norm_num)) (by push_cast; norm_num)
  have hi5 : trafficIncrease state9 5 ≤ 424 :=
    le_trans (state9_inc_ub 5 (by norm_num) (by norm_num)) (by push_cast; norm_num)
  have hi6 : trafficIncrease state9 6 ≤ 447 :=
    le_trans (state9_inc_ub 6 (by norm_num) (by norm_num)) (by push_cast; norm_num)
  have hi7 : trafficIncrease state9 7 ≤ 472 :=
    le_trans (state9_inc_ub 7 (by norm_num) (by norm_num)) (by push_cast; norm_num)
  have hi8 : trafficIncrease state9 8 ≤ 500 :=
    le_trans (state9_inc_ub 8 (by norm_num) (by norm_num)) (by push_cast; norm_num)
  have hi9 : trafficIncrease state9 9 ≤ 532 :=
    le_trans (state9_inc_ub 9 (by norm_num) (by norm_num)) (by push_cast; norm_num)
  have hi10 : trafficIncrease state9 10 ≤ 569 :=
    le_trans (state9_inc_ub 10 (by norm_num) (by norm_num)) (by push_cast; norm_num)
  have hi11 : trafficIncrease state9 11 ≤ 610 :=
    le_trans (state9_inc_ub 11 (by norm_num) (by norm_num)) (by push_cast; norm_num)
  have ht1 := state9_t_ub 1 (by norm_num) (by norm_num) 25 (le_of_eq state9_inc1)
    (by norm_num)
  have ht2 := state9_t_ub 2 (by norm_num) (by norm_num) 368 hi2 (by norm_num)
  have ht3 := state9_t_ub 3 (by norm_num) (by norm_num) 385 hi3 (by norm_num)
  have ht4 := state9_t_ub 4 (by norm_num) (by norm_num) 404 hi4 (by norm_num)
  have ht5 := state9_t_ub 5 (by norm_num) (by norm_num) 424 hi5 (by norm_num)
  have ht6 := state9_t_ub 6 (by norm_num) (by norm_num) 447 hi6 (by norm_num)
  have ht7 := state9_t_ub 7 (by norm_num) (by norm_num) 472 hi7 (by norm_num)
  have ht8 := state9_t_ub 8 (by norm_num) (by norm_num) 500 hi8 (by norm_num)
  have ht9 := state9_t_ub 9 (by norm_num) (by norm_num) 532 hi9 (by norm_num)
  have ht10 := state9_t_ub 10 (by norm_num) (by norm_num) 569 hi10 (by norm_num)
  have ht11 := state9_t_ub 11 (by norm_num) (by norm_num) 610 hi11 (by norm_num)
  have ht12 : (generateTrafficProjection state9).getD 12 0 = (1500 : ℝ) := by
    have h := generateTrafficProjection_final state9
    rw [show state9.timeframe = 12 from rfl,
      show state9.targetTraffic = (1500 : ℝ) from rfl] at h
    exact h
  have hc0 : cumulativeRevenue state9 (generateTrafficProjection state9) 0 = 0 := rfl
  have hc1 : cumulativeRevenue state9 (generateTrafficProjection state9) 1 ≤ (58 : ℝ) := by
    show cumulativeRevenue state9 (generateTrafficProjection state9) 0 +
      (monthlyRevenue state9 ((generateTrafficProjection state9).getD 1 0) -
        baselineMonthlyRevenue state9) ≤ (58 : ℝ)
    rw [state9_rev, hc0]
    linarith
  have hc2 : cumulativeRevenue state9 (generateTrafficProjection state9) 2 ≤ (876 : ℝ) := by
    show cumulativeRevenue state9 (generateTrafficProjection state9) 1 +
      (monthlyRevenue state9 ((generateTrafficProjection state9).getD 2 0) -
        baselineMonthlyRevenue state9) ≤ (876 : ℝ)
    rw [state9_rev]
    linarith
  have hc3 : cumulativeRevenue state9 (generateTrafficProjection state9) 3 ≤ (1732 : ℝ) := by
    show cumulativeRevenue state9 (generateTrafficProjection state9) 2 +
      (monthlyRevenue state9 ((generateTrafficProjection state9).getD 3 0) -
        baselineMonthlyRevenue state9) ≤ (1732 : ℝ)
    rw [state9_rev]
    linarith
  have hc4 : cumulativeRevenue state9 (generateTrafficProjection state9) 4 ≤ (2630 : ℝ) := by
    show cumulativeRevenue state9 (generateTrafficProjection state9) 3 +
      (monthlyRevenue state9 ((generateTrafficProjection state9).getD 4 0) -
        baselineMonthlyRevenue state9) ≤ (2630 : ℝ)
    rw [state9_rev]
    linarith
  have hc5 : cumulativeRevenue state9 (generateTrafficProjection state9) 5 ≤ (3573 : ℝ) := by
    show cumulativeRevenue state9 (generateTrafficProjection state9) 4 +
      (monthlyRevenue state9 ((generateTrafficProjection state9).getD 5 0) -
        baselineMonthlyRevenue state9) ≤ (3573 : ℝ)
    rw [state9_rev]
    linarith
  have hc6 : cumulativeRevenue state9 (generateTrafficProjection state9) 6 ≤ (4567 : ℝ) := by
    show cumulativeRevenue state9 (generateTrafficProjection state9) 5 +
      (monthlyRevenue state9 ((generateTrafficProjection state9).getD 6 0) -
        baselineMonthlyRevenue state9) ≤ (4567 : ℝ)
    rw [state9_rev]
    linarith
  have hc7 : cumulativeRevenue state9 (generateTrafficProjection state9) 7 ≤ (5616 : ℝ) := by
    show cumulativeRevenue state9 (generateTrafficProjection state9) 6 +
      (monthlyRevenue state9 ((generateTrafficProjection state9).getD 7 0) -
        baselineMonthlyRevenue state9) ≤ (5616 : ℝ)
    rw [state9_rev]
    linarith
  have hc8 : cumulativeRevenue state9 (generateTrafficProjection state9) 8 ≤ (6727 : ℝ) := by
    show cumulativeRevenue state9 (generateTrafficProjection state9) 7 +
      (monthlyRevenue state9 ((generateTrafficProjection state9).getD 8 0) -
        baselineMonthlyRevenue state9) ≤ (6727 : ℝ)
    rw [state9_rev]
    linarith
  have hc9 : cumulativeRevenue state9 (generateTrafficProjection state9) 9 ≤ (7909 : ℝ) := by
    show cumulativeRevenue state9 (generateTrafficProjection state9) 8 +
      (monthlyRevenue state9 ((generateTrafficProjection state9).getD 9 0) -
        baselineMonthlyRevenue state9) ≤ (7909 : ℝ)
    rw [state9_rev]
    linarith
  have hc10 : cumulativeRevenue state9 (generateTrafficProjection state9) 10 ≤ (9173 : ℝ) := by
    show cumulativeRevenue state9 (generateTrafficProjection state9) 9 +
      (monthlyRevenue state9 ((generateTrafficProjection state9).getD 10 0) -
        baselineMonthlyRevenue state9) ≤ (9173 : ℝ)
    rw [state9_rev]
    linarith
  have hc11 : cumulativeRevenue state9 (generateTrafficProjection state9) 11 ≤ (10528 : ℝ) := by
    show cumulativeRevenue state9 (generateTrafficProjection state9) 10 +
      (monthlyRevenue state9 ((generateTrafficProjection state9).getD 11 0) -
        baselineMonthlyRevenue state9) ≤ (10528 : ℝ)
    rw [state9_rev]
    linarith
  have hc12 : cumulativeRevenue state9 (generateTrafficProjection state9) 12 ≤ (11728 : ℝ) := by
    show cumulativeRevenue state9 (generateTrafficProjection state9) 11 +
      (monthlyRevenue state9 ((generateTrafficProjection state9).getD 12 0) -
        baselineMonthlyRevenue state9) ≤ (11728 : ℝ)
    rw [ht12, state9_rev]
    linarith
  intro j hj1 hj2
  have hj2' : j ≤ 12 := by
    rw [show state9.timeframe = 12 from rfl] at hj2
    exact hj2
  interval_cases j
  · exact lt_of_le_of_lt hc1 (by rw [state9_cost]; norm_num)
  · exact lt_of_le_of_lt hc2 (by rw [state9_cost]; norm_num)
  · exact lt_of_le_of_lt hc3 (by rw [state9_cost]; norm_num)
  · exact lt_of_le_of_lt hc4 (by rw [state9_cost]; norm_num)
  · exact lt_of_le_of_lt hc5 (by rw [state9_cost]; norm_num)
  · exact lt_of_le_of_lt hc6 (by rw [state9_cost]; norm_num)
  · exact lt_of_le_of_lt hc7 (by rw [state9_cost]; norm_num)
  · exact lt_of_le_of_lt hc8 (by rw [state9_cost]; norm_num)
  · exact lt_of_le_of_lt hc9 (by rw [state9_cost]; norm_num)
  · exact lt_of_le_of_lt hc10 (by rw [state9_cost]; norm_num)
  · exact lt_of_le_of_lt hc11 (by rw [state9_cost]; norm_num)
  · exact lt_of_le_of_lt hc12 (by rw [state9_cost]; norm_num)

/-- C9: on the known fixture (500 to 1500 visitors, 1.5% conversion, $80
order value, $1000 monthly cost, 12 months, medium competition) the engine's
projection followed by the hook's break-even locator yields a break-even month
between 11 and 12 inclusive.  Cumulative revenue increase in fact never
catches cumulative cost, so the locator falls through to its default, the
timeframe itself: the result is exactly 12. -/
theorem c9_theorem :
    11 ≤ calculateBreakEvenMonth state9 (generateTrafficProjection state9) ∧
      calculateBreakEvenMonth state9 (generateTrafficProjection state9) ≤ 12 := by
  have hraw := breakEvenRaw_never state9 (generateTrafficProjection state9) state9_never
  unfold calculateBreakEvenMonth
  rw [hraw, show ((state9.timeframe : ℕ) : ℝ) = ((12 : ℕ) : ℝ) from rfl, round1_natCast]
  norm_num

end SeoRoi
